import Mathlib

/-!
Shallow embedding of the Iskra sensor-calibration / dynamic-threshold core
(`services/sensor_calibration.py` and `services/dynamic_thresholds_v2.py`).
Python floats are modelled as rationals, Python `deque(maxlen=n)` as a list
that keeps its last `n` elements, and the JSON-like persisted payloads as a
small inductive type of Python values.
-/

namespace Iskra

/-- Python values as they occur in the persistence payloads:
`None`, booleans, numbers (floats and ints, both as rationals), strings,
lists/tuples, and string-keyed dicts (as association lists in insertion
order). -/
inductive PyVal where
  | none : PyVal
  | bool : Bool → PyVal
  | num : ℚ → PyVal
  | str : String → PyVal
  | list : List PyVal → PyVal
  | dict : List (String × PyVal) → PyVal

/-- Python truthiness (`bool(x)`): `None` and `False` are falsy, numbers are
truthy iff nonzero, strings and containers iff nonempty. -/
def pyTruthy : PyVal → Bool
  | PyVal.none => false
  | PyVal.bool b => b
  | PyVal.num q => q != 0
  | PyVal.str s => s ≠ ""
  | PyVal.list l => !l.isEmpty
  | PyVal.dict d => !d.isEmpty

/-- `d.get(key, default)` on a Python dict. -/
def pyDictGet (kvs : List (String × PyVal)) (key : String) (dflt : PyVal) : PyVal :=
  match kvs.lookup key with
  | some v => v
  | Option.none => dflt

/-- Models Python `float(x)` on payload values: numbers convert to themselves
and booleans to 0/1; `float(None)`, `float` of a list or of a dict raise
`TypeError`. Payloads produced by `to_state` never hold numeric strings, so
the string branch (which Python would parse or reject) is treated as a
conversion failure as well; no theorem below depends on that branch. -/
def pyFloat : PyVal → Except String ℚ
  | PyVal.num q => Except.ok q
  | PyVal.bool b => Except.ok (if b then 1 else 0)
  | PyVal.none => Except.error "TypeError: float() argument is None"
  | PyVal.str _ => Except.error "float() of a non-numeric string"
  | PyVal.list _ => Except.error "TypeError: float() argument is a list"
  | PyVal.dict _ => Except.error "TypeError: float() argument is a dict"

/-- Python `len(x)`: defined for strings, lists and dicts; numbers, booleans
and `None` have no `len` and raise `TypeError`. -/
def pyLen : PyVal → Except String ℕ
  | PyVal.str s => Except.ok s.length
  | PyVal.list l => Except.ok l.length
  | PyVal.dict d => Except.ok d.length
  | _ => Except.error "TypeError: object has no len"

/-- Python `x[i]` for a natural-number index: defined for lists (IndexError
when out of range) and strings (one-character string); integer indexing a
string-keyed dict raises `KeyError`, and other values are not subscriptable. -/
def pyIndex : PyVal → ℕ → Except String PyVal
  | PyVal.list l, i =>
    match l.get? i with
    | some v => Except.ok v
    | Option.none => Except.error "IndexError: list index out of range"
  | PyVal.str s, i =>
    match s.toList.get? i with
    | some c => Except.ok (PyVal.str (String.mk [c]))
    | Option.none => Except.error "IndexError: string index out of range"
  | PyVal.dict _, _ => Except.error "KeyError: integer key on a string-keyed dict"
  | _, _ => Except.error "TypeError: object is not subscriptable"

/-- `deque(maxlen := m).append x`: append on the right, evicting from the
left whatever exceeds `m` elements (a `maxlen = 0` deque stays empty,
as in Python). -/
def dequeAppend (maxlen : ℕ) (xs : List α) (x : α) : List α :=
  let ys := xs ++ [x]
  ys.drop (ys.length - maxlen)

/-- Python `xs[-n:]`: the last `n` elements (all of them when `n ≥ len`). -/
def takeLast (xs : List α) (n : ℕ) : List α :=
  xs.drop (xs.length - n)

/-- `TrendDirection` enum. -/
inductive TrendDirection where
  | rising | falling | stable | volatile
deriving DecidableEq, Repr

/-- `SpikeSeverity` enum. -/
inductive SpikeSeverity where
  | minor | moderate | severe | critical
deriving DecidableEq, Repr

/-- `SensorReading` dataclass; `source` and `context` keep their dynamic
Python type (a restore can place arbitrary payload values there). -/
structure SensorReading where
  value : ℚ
  timestamp : ℚ
  source : PyVal
  context : PyVal

/-- `TrendAnalysis` dataclass. -/
structure TrendAnalysis where
  direction : TrendDirection
  slope : ℚ
  momentum : ℚ
  r_squared : ℚ
  confidence : ℚ
  window_size : ℕ
deriving DecidableEq, Repr

/-- `SpikeEvent` dataclass. -/
structure SpikeEvent where
  timestamp : ℚ
  value : ℚ
  baseline : ℚ
  deviation : ℚ
  severity : SpikeSeverity
  sensor : String
deriving DecidableEq, Repr

/-- `CalibrationProfile` dataclass. -/
structure CalibrationProfile where
  name : String
  spike_minor_threshold : ℚ
  spike_moderate_threshold : ℚ
  spike_severe_threshold : ℚ
  spike_critical_threshold : ℚ
  ema_fast_alpha : ℚ
  ema_slow_alpha : ℚ
  baseline_adaptation_rate : ℚ
  baseline_min_samples : ℕ
  value_half_life_seconds : ℚ
  pain_sensitivity : ℚ
  echo_sensitivity : ℚ
deriving DecidableEq, Repr

/-- The `default` calibration profile (all dataclass field defaults). -/
def defaultProfile : CalibrationProfile where
  name := "default"
  spike_minor_threshold := 0.15
  spike_moderate_threshold := 0.25
  spike_severe_threshold := 0.40
  spike_critical_threshold := 0.60
  ema_fast_alpha := 0.3
  ema_slow_alpha := 0.05
  baseline_adaptation_rate := 0.02
  baseline_min_samples := 10
  value_half_life_seconds := 3600
  pain_sensitivity := 1
  echo_sensitivity := 1

/-- The `sensitive` calibration profile. -/
def sensitiveProfile : CalibrationProfile :=
  { defaultProfile with
    name := "sensitive"
    spike_minor_threshold := 0.10
    spike_moderate_threshold := 0.20
    spike_severe_threshold := 0.35
    spike_critical_threshold := 0.50
    pain_sensitivity := 1.2
    echo_sensitivity := 1.2 }

/-- The `relaxed` calibration profile. -/
def relaxedProfile : CalibrationProfile :=
  { defaultProfile with
    name := "relaxed"
    spike_minor_threshold := 0.20
    spike_moderate_threshold := 0.35
    spike_severe_threshold := 0.50
    spike_critical_threshold := 0.70
    pain_sensitivity := 0.8
    echo_sensitivity := 0.8 }

/-- The `crisis` calibration profile. -/
def crisisProfile : CalibrationProfile :=
  { defaultProfile with
    name := "crisis"
    spike_minor_threshold := 0.05
    spike_moderate_threshold := 0.10
    spike_severe_threshold := 0.20
    spike_critical_threshold := 0.35
    ema_fast_alpha := 0.5
    baseline_adaptation_rate := 0.01
    pain_sensitivity := 1.5
    echo_sensitivity := 1.3 }

/-- The module-level `CALIBRATION_PROFILES` registry. -/
def CALIBRATION_PROFILES : List (String × CalibrationProfile) :=
  [("default", defaultProfile), ("sensitive", sensitiveProfile),
   ("relaxed", relaxedProfile), ("crisis", crisisProfile)]

/-- `CALIBRATION_PROFILES.get(name)`. -/
def lookupProfile (name : String) : Option CalibrationProfile :=
  CALIBRATION_PROFILES.lookup name

/-- Mutable state of one `CalibratedSensor` (leading underscores of the
Python attributes dropped). -/
structure CalibratedSensor where
  name : String
  profile : CalibrationProfile
  maxlen : ℕ
  history : List SensorReading
  spike_history : List SpikeEvent
  ema_fast : ℚ
  ema_slow : ℚ
  ema_baseline : ℚ
  baseline : ℚ
  baseline_samples : ℕ
  last_slope : ℚ
  total_readings : ℕ
  total_spikes : ℕ

/-- `CalibratedSensor.__init__` (the Python default `maxlen` is 500;
callers passing no profile get the `default` registry entry). -/
def mkSensor (name : String) (profile : CalibrationProfile) (maxlen : ℕ) : CalibratedSensor where
  name := name
  profile := profile
  maxlen := maxlen
  history := []
  spike_history := []
  ema_fast := 0.5
  ema_slow := 0.5
  ema_baseline := 0.5
  baseline := 0.5
  baseline_samples := 0
  last_slope := 0
  total_readings := 0
  total_spikes := 0

/-- `CalibratedSensor._detect_spike`: deviation from baseline, scaled by the
per-sensor sensitivity, classified against the profile thresholds from
`critical` down; below `minor` there is no spike. -/
def CalibratedSensor.detect_spike (s : CalibratedSensor) (value timestamp : ℚ) :
    Option SpikeEvent :=
  let deviation := value - s.baseline
  let abs_deviation := |deviation|
  let abs_deviation :=
    if s.name = "pain" then abs_deviation * s.profile.pain_sensitivity
    else if s.name = "echo" then abs_deviation * s.profile.echo_sensitivity
    else abs_deviation
  let mk : SpikeSeverity → Option SpikeEvent := fun severity =>
    some { timestamp := timestamp, value := value, baseline := s.baseline,
           deviation := deviation, severity := severity, sensor := s.name }
  if s.profile.spike_critical_threshold ≤ abs_deviation then mk SpikeSeverity.critical
  else if s.profile.spike_severe_threshold ≤ abs_deviation then mk SpikeSeverity.severe
  else if s.profile.spike_moderate_threshold ≤ abs_deviation then mk SpikeSeverity.moderate
  else if s.profile.spike_minor_threshold ≤ abs_deviation then mk SpikeSeverity.minor
  else Option.none

/-- The first half of `CalibratedSensor.add_reading`, before spike
detection: clamp the value to [0,1], append the reading (bounded history),
update both EMAs, and update the baseline once past `baseline_min_samples`. -/
def CalibratedSensor.ingest (s : CalibratedSensor) (value ts : ℚ)
    (source context : PyVal) : CalibratedSensor :=
  let v := max 0 (min 1 value)
  let reading : SensorReading :=
    { value := v, timestamp := ts, source := source, context := context }
  let s := { s with
    history := dequeAppend s.maxlen s.history reading
    total_readings := s.total_readings + 1 }
  let s := { s with
    ema_fast := s.profile.ema_fast_alpha * v + (1 - s.profile.ema_fast_alpha) * s.ema_fast
    ema_slow := s.profile.ema_slow_alpha * v + (1 - s.profile.ema_slow_alpha) * s.ema_slow }
  let s := { s with baseline_samples := s.baseline_samples + 1 }
  if s.profile.baseline_min_samples ≤ s.baseline_samples then
    { s with baseline :=
        s.profile.baseline_adaptation_rate * v +
        (1 - s.profile.baseline_adaptation_rate) * s.baseline }
  else s

/-- `CalibratedSensor.add_reading`: ingest the (clamped) reading, then run
spike detection on the updated state and record any spike. Returns the
updated sensor and the detected spike, if any. Total — the Python method
never raises. -/
def CalibratedSensor.add_reading (s : CalibratedSensor) (value ts : ℚ)
    (source context : PyVal) : CalibratedSensor × Option SpikeEvent :=
  let s := s.ingest value ts source context
  match s.detect_spike (max 0 (min 1 value)) ts with
  | some spike =>
    ({ s with
        spike_history := dequeAppend 100 s.spike_history spike
        total_spikes := s.total_spikes + 1 }, some spike)
  | Option.none => (s, Option.none)

/-- `CalibratedSensor.set_profile`: look the name up in the registry; an
unknown name is a no-op. -/
def CalibratedSensor.set_profile (s : CalibratedSensor) (profile_name : String) :
    CalibratedSensor :=
  match lookupProfile profile_name with
  | some p => { s with profile := p }
  | Option.none => s

/-- `CalibratedSensor.analyze_trend`: ordinary least squares of the last
`window_size` reading values against their index positions; fewer than 3
readings give the degenerate `stable` result (and leave `last_slope`
untouched — the code returns before reaching the momentum update).
Returns the analysis together with the sensor, whose single-slot
`last_slope` memory the call mutates. (`window_size = 0` would raise
`ZeroDivisionError` in Python when computing the confidence; the rational
convention 0 is used here and no callers pass 0.) -/
def CalibratedSensor.analyze_trend (s : CalibratedSensor) (window_size : ℕ) :
    TrendAnalysis × CalibratedSensor :=
  let recent := takeLast s.history window_size
  if recent.length < 3 then
    ({ direction := TrendDirection.stable, slope := 0, momentum := 0,
       r_squared := 0, confidence := 0, window_size := recent.length }, s)
  else
    let n : ℕ := recent.length
    let nq : ℚ := n
    let x_vals : List ℚ := (List.range n).map (fun i => (i : ℚ))
    let y_vals : List ℚ := recent.map (fun r => r.value)
    let x_mean := x_vals.sum / nq
    let y_mean := y_vals.sum / nq
    let numer := (List.zipWith (fun x y => (x - x_mean) * (y - y_mean)) x_vals y_vals).sum
    let denom := (x_vals.map (fun x => (x - x_mean) ^ 2)).sum
    let slope : ℚ := if denom = 0 then 0 else numer / denom
    let y_pred := x_vals.map (fun x => y_mean + slope * (x - x_mean))
    let ss_res := (List.zipWith (fun y yp => (y - yp) ^ 2) y_vals y_pred).sum
    let ss_tot := (y_vals.map (fun y => (y - y_mean) ^ 2)).sum
    let r_squared : ℚ := if 0 < ss_tot then 1 - ss_res / ss_tot else 0
    let momentum := slope - s.last_slope
    let s := { s with last_slope := slope }
    let direction :=
      if |slope| < 0.001 then TrendDirection.stable
      else if r_squared < 0.3 then TrendDirection.volatile
      else if 0 < slope then TrendDirection.rising
      else TrendDirection.falling
    let confidence := min 1 (r_squared * (nq / (window_size : ℚ)))
    ({ direction := direction, slope := slope, momentum := momentum,
       r_squared := r_squared, confidence := confidence, window_size := n }, s)

/-- The `current_value` entry of `CalibratedSensor.get_current_state`:
the last reading's value, or 0.5 for an empty history. -/
def CalibratedSensor.current_value (s : CalibratedSensor) : ℚ :=
  match s.history.getLast? with
  | some r => r.value
  | Option.none => 0.5

/-- `CalibratedSensor.to_state`: persistence snapshot — name, profile name,
the last 100 readings as `(timestamp, value, source)` triples, both EMAs,
baseline, baseline sample count and the two totals. The spike history and
the trend slope memory are not exported. -/
def CalibratedSensor.to_state (s : CalibratedSensor) : PyVal :=
  PyVal.dict
    [("name", PyVal.str s.name),
     ("profile_name", PyVal.str s.profile.name),
     ("history", PyVal.list ((takeLast s.history 100).map (fun r =>
        PyVal.list [PyVal.num r.timestamp, PyVal.num r.value, r.source]))),
     ("ema_fast", PyVal.num s.ema_fast),
     ("ema_slow", PyVal.num s.ema_slow),
     ("baseline", PyVal.num s.baseline),
     ("baseline_samples", PyVal.num (s.baseline_samples : ℚ)),
     ("total_readings", PyVal.num (s.total_readings : ℚ)),
     ("total_spikes", PyVal.num (s.total_spikes : ℚ))]

/-- String extraction for payload fields that Python assigns verbatim into
string-typed attributes (`name`, `profile_name`): payloads written by
`to_state` always hold strings there; a non-string value would be stored
unchanged by Python and is collapsed to the given default here (no theorem
depends on that corner). -/
def pyGetStrD (kvs : List (String × PyVal)) (key dflt : String) : String :=
  match pyDictGet kvs key (PyVal.str dflt) with
  | PyVal.str s => s
  | _ => dflt

/-- Numeric extraction for payload fields Python assigns verbatim into
float-typed attributes (`ema_fast`, `baseline`, ...): numbers and booleans
convert; other values would be stored unchanged by Python (failing only in
later arithmetic) and are collapsed to the default here (no theorem depends
on that corner). -/
def pyGetNumD (kvs : List (String × PyVal)) (key : String) (dflt : ℚ) : ℚ :=
  match pyDictGet kvs key (PyVal.num dflt) with
  | PyVal.num q => q
  | PyVal.bool b => if b then 1 else 0
  | _ => dflt

/-- Natural-number extraction for the counter fields (`baseline_samples`,
`total_readings`, `total_spikes`), as `pyGetNumD` rounded down at zero. -/
def pyGetNatD (kvs : List (String × PyVal)) (key : String) (dflt : ℕ) : ℕ :=
  (Int.toNat (Rat.floor (pyGetNumD kvs key (dflt : ℚ))))

/-- The loop body of `CalibratedSensor.from_state` over the persisted
`history` entries: items shorter than 2 are skipped; otherwise
`float(item[1])` and `float(item[0])` must convert (an inconvertible value
raises, aborting the whole restore), the third element (or `"restored"`)
becomes the source, and the reading is appended to the (maxlen 500)
history. `len(item)` itself raises on non-sized items. -/
def restoreHistory (maxlen : ℕ) : List PyVal → List SensorReading →
    Except String (List SensorReading)
  | [], acc => Except.ok acc
  | item :: rest, acc => do
    let n ← pyLen item
    if 2 ≤ n then
      let tsv ← pyIndex item 0
      let valv ← pyIndex item 1
      let source ← if 2 < n then pyIndex item 2 else pure (PyVal.str "restored")
      let val ← pyFloat valv
      let ts ← pyFloat tsv
      let reading : SensorReading :=
        { value := val, timestamp := ts, source := source, context := PyVal.none }
      restoreHistory maxlen rest (dequeAppend maxlen acc reading)
    else
      restoreHistory maxlen rest acc

/-- The iterable produced by `for item in state.get("history", [])`: lists
iterate their elements, dicts their keys, strings their characters; numbers,
booleans and `None` are not iterable and raise `TypeError`. -/
def pyIterate : PyVal → Except String (List PyVal)
  | PyVal.list l => Except.ok l
  | PyVal.dict d => Except.ok (d.map (fun kv => PyVal.str kv.1))
  | PyVal.str s => Except.ok (s.toList.map (fun c => PyVal.str (String.mk [c])))
  | _ => Except.error "TypeError: object is not iterable"

/-- `CalibratedSensor.from_state`: rebuild a sensor from a persisted dict —
profile looked up by name (unknown names fall back to `default`), history
entries re-appended (short entries skipped, inconvertible values raising),
then the EMAs, baseline and counters restored with defaults for missing
keys. A non-dict payload raises (`state.get` on it fails). -/
def sensorFromState (state : PyVal) : Except String CalibratedSensor := do
  match state with
  | PyVal.dict kvs =>
    let profile_name := pyGetStrD kvs "profile_name" "default"
    let profile := (lookupProfile profile_name).getD defaultProfile
    let s := mkSensor (pyGetStrD kvs "name" "unknown") profile 500
    let items ← pyIterate (pyDictGet kvs "history" (PyVal.list []))
    let hist ← restoreHistory s.maxlen items []
    Except.ok { s with
      history := hist
      ema_fast := pyGetNumD kvs "ema_fast" 0.5
      ema_slow := pyGetNumD kvs "ema_slow" 0.5
      baseline := pyGetNumD kvs "baseline" 0.5
      baseline_samples := pyGetNatD kvs "baseline_samples" 0
      total_readings := pyGetNatD kvs "total_readings" 0
      total_spikes := pyGetNatD kvs "total_spikes" 0 }
  | _ => Except.error "AttributeError: state has no attribute get"

/-- The five sensors owned by `SensorCalibrationManager.__init__`, keyed by
the fixed names `pain`, `echo`, `drift`, `clarity`, `mirror_sync` (the dict
keys never change after construction: `from_state` only overwrites known
names). -/
structure Sensors where
  pain : CalibratedSensor
  echo : CalibratedSensor
  drift : CalibratedSensor
  clarity : CalibratedSensor
  mirror_sync : CalibratedSensor

/-- `self.sensors[name]` / the `name in self.sensors` membership test. -/
def Sensors.lookup (ss : Sensors) : String → Option CalibratedSensor
  | "pain" => some ss.pain
  | "echo" => some ss.echo
  | "drift" => some ss.drift
  | "clarity" => some ss.clarity
  | "mirror_sync" => some ss.mirror_sync
  | _ => Option.none

/-- `for sensor in self.sensors.values(): ...` applied pointwise. -/
def Sensors.map (f : CalibratedSensor → CalibratedSensor) (ss : Sensors) : Sensors where
  pain := f ss.pain
  echo := f ss.echo
  drift := f ss.drift
  clarity := f ss.clarity
  mirror_sync := f ss.mirror_sync

/-- `self.sensors[name] = sensor` for a known name (unknown names leave the
dict unchanged — `from_state` guards with `if name in manager.sensors`). -/
def Sensors.set (ss : Sensors) (name : String) (s : CalibratedSensor) : Sensors :=
  match name with
  | "pain" => { ss with pain := s }
  | "echo" => { ss with echo := s }
  | "drift" => { ss with drift := s }
  | "clarity" => { ss with clarity := s }
  | "mirror_sync" => { ss with mirror_sync := s }
  | _ => ss

/-- `SensorCalibrationManager` state (leading underscores dropped). -/
structure SensorCalibrationManager where
  sensors : Sensors
  current_profile : String
  crisis_mode : Bool

/-- `SensorCalibrationManager.__init__`: five fresh default-profile sensors,
`default` global profile, crisis mode off. -/
def mkManager : SensorCalibrationManager where
  sensors :=
    { pain := mkSensor "pain" defaultProfile 500
      echo := mkSensor "echo" defaultProfile 500
      drift := mkSensor "drift" defaultProfile 500
      clarity := mkSensor "clarity" defaultProfile 500
      mirror_sync := mkSensor "mirror_sync" defaultProfile 500 }
  current_profile := "default"
  crisis_mode := false

/-- `IskraMetrics` (core.models): the five core metric fields consumed here,
plus `mirror_sync`, which some variants of the model lack — the manager
reads it with `getattr(metrics, 'mirror_sync', 0.5)`. -/
structure IskraMetrics where
  trust : ℚ
  clarity : ℚ
  pain : ℚ
  drift : ℚ
  chaos : ℚ
  mirror_sync : Option ℚ

/-- `SensorCalibrationManager._activate_crisis_mode`: raise the flag and
switch every sensor to the `crisis` profile. -/
def activate_crisis_mode (m : SensorCalibrationManager) : SensorCalibrationManager :=
  { m with crisis_mode := true
           sensors := m.sensors.map (fun s => s.set_profile "crisis") }

/-- `SensorCalibrationManager._deactivate_crisis_mode`: clear the flag and
switch every sensor to the manager's recorded profile name (a no-op per
sensor when that name is not in the registry). -/
def deactivate_crisis_mode (m : SensorCalibrationManager) : SensorCalibrationManager :=
  { m with crisis_mode := false
           sensors := m.sensors.map (fun s => s.set_profile m.current_profile) }

/-- The count of spikes of the batch whose severity is `severe` or
`critical` (`len(critical_spikes)` in `_check_crisis_conditions`). -/
def countSevereOrCritical (spikes : List SpikeEvent) : ℕ :=
  (spikes.filter (fun s =>
    s.severity = SpikeSeverity.critical ∨ s.severity = SpikeSeverity.severe)).length

/-- The deactivation test of `_check_crisis_conditions`: the pain sensor's
current value is below 0.5 and its trend direction is not `rising`. The
enclosed `get_current_state` call runs `analyze_trend`, which mutates the
pain sensor's slope memory, so the updated pain sensor is returned too. -/
def painRecoveryCheck (painSensor : CalibratedSensor) : Bool × CalibratedSensor :=
  let tr := painSensor.analyze_trend 20
  (decide (tr.2.current_value < 0.5) &&
    decide (tr.1.direction ≠ TrendDirection.rising), tr.2)

/-- The manager after the deactivation test's `get_current_state` call:
only the pain sensor's trend-slope memory moves. -/
def crisisPainCheckState (m : SensorCalibrationManager) : SensorCalibrationManager :=
  { m with sensors := { m.sensors with
    pain := (painRecoveryCheck m.sensors.pain).2 } }

/-- `SensorCalibrationManager._check_crisis_conditions`: activate when the
batch holds at least two severe/critical spikes while not in crisis mode;
otherwise, when in crisis mode, deactivate once the pain sensor reads below
0.5 with a non-rising trend (the test itself mutates the pain sensor's
slope memory either way). -/
def check_crisis_conditions (m : SensorCalibrationManager) (spikes : List SpikeEvent) :
    SensorCalibrationManager :=
  if 2 ≤ countSevereOrCritical spikes ∧ ¬m.crisis_mode then
    activate_crisis_mode m
  else if m.crisis_mode then
    (if (painRecoveryCheck m.sensors.pain).1
      then deactivate_crisis_mode (crisisPainCheckState m)
      else crisisPainCheckState m)
  else m

/-- The reading-feeding half of `SensorCalibrationManager.update_from_metrics`:
pain, drift, clarity and `mirror_sync` (defaulting to 0.5 when the metrics
object lacks it) are fed to their sensors in that order with source
`"metrics"`, collecting any spikes. -/
def feedMetrics (m : SensorCalibrationManager) (metrics : IskraMetrics) (ts : ℚ) :
    SensorCalibrationManager × List SpikeEvent :=
  let rPain := m.sensors.pain.add_reading metrics.pain ts (PyVal.str "metrics") PyVal.none
  let rDrift := m.sensors.drift.add_reading metrics.drift ts (PyVal.str "metrics") PyVal.none
  let rClarity := m.sensors.clarity.add_reading metrics.clarity ts (PyVal.str "metrics") PyVal.none
  let rMirror := m.sensors.mirror_sync.add_reading (metrics.mirror_sync.getD 0.5) ts
    (PyVal.str "metrics") PyVal.none
  let m := { m with sensors := { m.sensors with
    pain := rPain.1, drift := rDrift.1, clarity := rClarity.1, mirror_sync := rMirror.1 } }
  (m, [rPain.2, rDrift.2, rClarity.2, rMirror.2].filterMap id)

/-- `SensorCalibrationManager.update_from_metrics`: feed the batch, then
evaluate the crisis transition; returns the detected spikes. -/
def update_from_metrics (m : SensorCalibrationManager) (metrics : IskraMetrics) (ts : ℚ) :
    SensorCalibrationManager × List SpikeEvent :=
  let fed := feedMetrics m metrics ts
  (check_crisis_conditions fed.1 fed.2, fed.2)

/-- `SensorCalibrationManager.set_global_profile`: always record the name;
apply it to every sensor only when not in crisis mode. -/
def set_global_profile (m : SensorCalibrationManager) (profile_name : String) :
    SensorCalibrationManager :=
  let m := { m with current_profile := profile_name }
  if ¬m.crisis_mode then
    { m with sensors := m.sensors.map (fun s => s.set_profile profile_name) }
  else m

/-- `SensorCalibrationManager.from_state`: fresh manager, then the recorded
profile name, the crisis flag (by Python truthiness) and each known sensor
entry restored; a failing per-sensor restore aborts the whole restore, and a
non-dict payload or `sensors` value raises. -/
def managerFromState (state : PyVal) : Except String SensorCalibrationManager := do
  match state with
  | PyVal.dict kvs =>
    let m := { mkManager with
      current_profile := pyGetStrD kvs "current_profile" "default"
      crisis_mode := pyTruthy (pyDictGet kvs "crisis_mode" (PyVal.bool false)) }
    match pyDictGet kvs "sensors" (PyVal.dict []) with
    | PyVal.dict entries =>
      entries.foldlM (fun (acc : SensorCalibrationManager) kv => do
        match acc.sensors.lookup kv.1 with
        | some _ => do
          let s ← sensorFromState kv.2
          pure { acc with sensors := acc.sensors.set kv.1 s }
        | Option.none => pure acc) m
    | _ => Except.error "AttributeError: sensors value has no attribute items"
  | _ => Except.error "AttributeError: state has no attribute get"

/-- The Pearson-correlation tail of `get_correlation`, applied to the two
positionally aligned value lists of common length `n`: product-moment
numerator over the two square-root denominators, 0.0 when either
denominator is zero. -/
noncomputable def pearson (values_a values_b : List ℝ) (n : ℕ) : ℝ :=
  let mean_a := values_a.sum / (n : ℝ)
  let mean_b := values_b.sum / (n : ℝ)
  let numer := (List.zipWith (fun a b => (a - mean_a) * (b - mean_b)) values_a values_b).sum
  let denom_a := Real.sqrt ((values_a.map (fun a => (a - mean_a) ^ 2)).sum)
  let denom_b := Real.sqrt ((values_b.map (fun b => (b - mean_b) ^ 2)).sum)
  if denom_a = 0 ∨ denom_b = 0 then 0
  else numer / (denom_a * denom_b)

/-- `SensorCalibrationManager.get_correlation`: Pearson correlation of the
positionally aligned tails of two sensors' histories; 0.0 for unknown
names, histories shorter than 3 readings or a zero denominator. Real-valued
because the code takes `math.sqrt`. -/
noncomputable def get_correlation (m : SensorCalibrationManager)
    (sensor_a sensor_b : String) (window : ℕ) : ℝ :=
  match m.sensors.lookup sensor_a, m.sensors.lookup sensor_b with
  | some sa, some sb =>
    let history_a := takeLast sa.history window
    let history_b := takeLast sb.history window
    if history_a.length < 3 ∨ history_b.length < 3 then 0
    else
      let n := min history_a.length history_b.length
      let values_a : List ℝ := (takeLast history_a n).map (fun r => (r.value : ℝ))
      let values_b : List ℝ := (takeLast history_b n).map (fun r => (r.value : ℝ))
      pearson values_a values_b n
  | _, _ => 0

/-- Modelled from the spec: `core.models.PhaseType` as imported by
`dynamic_thresholds_v2` is not under `src/`; the spec says the
`deep_reflection` context needs one of two specific phases and the
`exploration` context a specific transition phase, matching the three
member names the adapter references. Every other phase is collapsed into
`other`. -/
inductive PhaseType where
  | phase_3_transition | phase_4_deep_dive | phase_5_synthesis | other
deriving DecidableEq, Repr

/-- `ThresholdContext` enum. -/
inductive ThresholdContext where
  | normal | crisis | recovery | exploration | deep_reflection
deriving DecidableEq, Repr

/-- `ThresholdContext(value)` with its `try/except ValueError` fallback to
`NORMAL`, as used by `DynamicThresholdAdapterV2.from_state`. -/
def thresholdContextOfString (s : String) : ThresholdContext :=
  if s = "normal" then ThresholdContext.normal
  else if s = "crisis" then ThresholdContext.crisis
  else if s = "recovery" then ThresholdContext.recovery
  else if s = "exploration" then ThresholdContext.exploration
  else if s = "deep_reflection" then ThresholdContext.deep_reflection
  else ThresholdContext.normal

/-- `ContextThresholds` dataclass. -/
structure ContextThresholds where
  pain_high_mult : ℚ
  pain_medium_mult : ℚ
  drift_high_mult : ℚ
  clarity_low_mult : ℚ
  mirror_sync_low_mult : ℚ
  adaptation_rate_mult : ℚ
deriving DecidableEq, Repr

/-- `CONTEXT_MULTIPLIERS`. -/
def contextMultipliers : ThresholdContext → ContextThresholds
  | ThresholdContext.normal =>
    { pain_high_mult := 1, pain_medium_mult := 1, drift_high_mult := 1,
      clarity_low_mult := 1, mirror_sync_low_mult := 1, adaptation_rate_mult := 1 }
  | ThresholdContext.crisis =>
    { pain_high_mult := 0.8, pain_medium_mult := 0.8, drift_high_mult := 0.7,
      clarity_low_mult := 1.2, mirror_sync_low_mult := 0.8, adaptation_rate_mult := 0.5 }
  | ThresholdContext.recovery =>
    { pain_high_mult := 1.1, pain_medium_mult := 1.1, drift_high_mult := 1.2,
      clarity_low_mult := 0.9, mirror_sync_low_mult := 1.1, adaptation_rate_mult := 1.5 }
  | ThresholdContext.exploration =>
    { pain_high_mult := 1.2, pain_medium_mult := 1.2, drift_high_mult := 1.3,
      clarity_low_mult := 0.8, mirror_sync_low_mult := 1, adaptation_rate_mult := 1.2 }
  | ThresholdContext.deep_reflection =>
    { pain_high_mult := 0.9, pain_medium_mult := 0.9, drift_high_mult := 0.8,
      clarity_low_mult := 1.1, mirror_sync_low_mult := 0.7, adaptation_rate_mult := 0.8 }

/-- The numeric entries of `config.THRESHOLDS`, in dict order (the two
integer-valued entries pass the `isinstance(v, (int, float))` filter and are
included as floats). -/
def THRESHOLDS : List (String × ℚ) :=
  [("pain_high", 0.7), ("pain_medium", 0.5), ("clarity_low", 0.7),
   ("trust_low", 0.75), ("drift_high", 0.3), ("chaos_high", 0.6),
   ("stagnation_clarity", 0.9), ("stagnation_chaos", 0.1),
   ("gravitas_silence_mass", 0.6), ("splinter_pain_cycles", 2),
   ("mantra_drift_trigger", 0.8), ("micro_lz_low", 0.4),
   ("cognitive_pain_boost", 0.1), ("cognitive_drift_boost", 0.1),
   ("maki_bloom_a_index", 0.85), ("kain_slice_pain", 0.7),
   ("sibyl_phase_transition_chaos", 0.8), ("sibyl_metric_volatility", 0.3),
   ("sibyl_transition_proximity", 0.9), ("vulnerability_range_min", 0.72),
   ("vulnerability_range_max", 0.94), ("telos_activation_complexity", 0.7),
   ("telos_cd_index_min", 0.6), ("telos_debate_threshold", 0.4),
   ("cd_truthfulness_min", 0.7), ("cd_groundedness_min", 0.6),
   ("cd_helpfulness_min", 0.5), ("cd_civility_min", 0.8),
   ("sift_source_confidence", 0.7), ("sift_max_hops", 3),
   ("growth_integration_threshold", 0.8), ("growth_pain_learning", 0.6)]

/-- `DynamicThresholdAdapterV2.__init__`'s `self._base`: the numeric config
thresholds plus the two `mirror_sync` entries appended when absent. -/
def adapterBase : List (String × ℚ) :=
  THRESHOLDS ++ [("mirror_sync_low", 0.4), ("mirror_sync_critical", 0.2)]

/-- The `bounds` table of `_init_threshold_states`; names not listed get
`(0.1, 0.9)`. -/
def thresholdBounds (name : String) : ℚ × ℚ :=
  if name = "pain_high" then (0.4, 0.95)
  else if name = "pain_medium" then (0.2, 0.7)
  else if name = "pain_low" then (0.1, 0.4)
  else if name = "drift_high" then (0.2, 0.8)
  else if name = "drift_medium" then (0.1, 0.5)
  else if name = "clarity_low" then (0.3, 0.9)
  else if name = "clarity_critical" then (0.2, 0.5)
  else if name = "mirror_sync_low" then (0.3, 0.6)
  else if name = "mirror_sync_critical" then (0.1, 0.4)
  else if name = "trust_low" then (0.3, 0.6)
  else if name = "chaos_high" then (0.5, 0.9)
  else (0.1, 0.9)

/-- `ThresholdState` dataclass. -/
structure ThresholdState where
  name : String
  base_value : ℚ
  current_value : ℚ
  min_bound : ℚ
  max_bound : ℚ
  last_updated : ℚ
  update_count : ℕ
deriving DecidableEq, Repr

/-- `ThresholdHistory` dataclass. -/
structure ThresholdHistory where
  timestamp : ℚ
  threshold_name : String
  old_value : ℚ
  new_value : ℚ
  reason : String
  context : ThresholdContext
deriving DecidableEq, Repr

/-- Modelled from the spec: `services/pain_memory_manager.py` is not under
`src/`. The adapter only appends pain readings to it and asks for an EMA of
the recent observations, so it is modelled as a bounded list of
`(timestamp, value)` pairs with an exponential moving average over the
stored values (0.5 when empty). -/
structure PainMemoryManager where
  maxlen : ℕ
  entries : List (ℚ × ℚ)

/-- Modelled from the spec: `PainMemoryManager.add_pain` appends one
observation, evicting the oldest past `maxlen`. -/
def PainMemoryManager.add_pain (pm : PainMemoryManager) (value ts : ℚ) :
    PainMemoryManager :=
  { pm with entries := dequeAppend pm.maxlen pm.entries (ts, value) }

/-- Modelled from the spec: `PainMemoryManager.ema` — exponential moving
average of the stored pain values with the given smoothing factor. -/
def PainMemoryManager.ema (pm : PainMemoryManager) (alpha : ℚ) : ℚ :=
  match pm.entries with
  | [] => 0.5
  | e :: rest => (rest.map Prod.snd).foldl (fun acc v => alpha * v + (1 - alpha) * acc) e.2

/-- The five keyed lists of `self._metric_histories`. -/
structure MetricHistories where
  drift : List (ℚ × ℚ)
  clarity : List (ℚ × ℚ)
  mirror_sync : List (ℚ × ℚ)
  trust : List (ℚ × ℚ)
  chaos : List (ℚ × ℚ)

/-- `DynamicThresholdAdapterV2` state (leading underscores dropped). -/
structure DynamicThresholdAdapterV2 where
  base : List (String × ℚ)
  states : List (String × ThresholdState)
  pain_history : PainMemoryManager
  metric_histories : MetricHistories
  current_context : ThresholdContext
  context_duration : ℚ
  last_context_change : ℚ
  history : List ThresholdHistory
  current_phase : Option PhaseType

/-- `_init_threshold_states`: one state per base entry, started at its base
value with the bounds table's bounds. -/
def initThresholdStates (now : ℚ) : List (String × ThresholdState) :=
  adapterBase.map (fun nb =>
    (nb.1,
      { name := nb.1, base_value := nb.2, current_value := nb.2,
        min_bound := (thresholdBounds nb.1).1, max_bound := (thresholdBounds nb.1).2,
        last_updated := now, update_count := 0 }))

/-- `DynamicThresholdAdapterV2.__init__` at wall-clock time `now`. -/
def mkAdapter (now : ℚ) : DynamicThresholdAdapterV2 where
  base := adapterBase
  states := initThresholdStates now
  pain_history := { maxlen := 100, entries := [] }
  metric_histories :=
    { drift := [], clarity := [], mirror_sync := [], trust := [], chaos := [] }
  current_context := ThresholdContext.normal
  context_duration := 0
  last_context_change := now
  history := []
  current_phase := Option.none

/-- `self._states.get(name)` on the association list. -/
def lookupState (ad : DynamicThresholdAdapterV2) (name : String) : Option ThresholdState :=
  (ad.states.lookup name)

/-- `self._states[name] = st` (the key already exists whenever this is
reached). -/
def setState (states : List (String × ThresholdState)) (name : String)
    (st : ThresholdState) : List (String × ThresholdState) :=
  states.map (fun e => if e.1 = name then (e.1, st) else e)

/-- `_record_change`: append to the change history, trimmed to the last
`MAX_HISTORY = 1000` entries. -/
def record_change (ad : DynamicThresholdAdapterV2) (name : String)
    (old_value new_value : ℚ) (reason : String) (now : ℚ) :
    DynamicThresholdAdapterV2 :=
  let h := ad.history ++
    [{ timestamp := now, threshold_name := name, old_value := old_value,
       new_value := new_value, reason := reason, context := ad.current_context }]
  { ad with history := if 1000 < h.length then takeLast h 1000 else h }

/-- `DynamicThresholdAdapterV2._clamp`. -/
def clampQ (value min_val max_val : ℚ) : ℚ :=
  max min_val (min max_val value)

/-- `_adapt_threshold`: nudge `name` from its context-scaled base toward the
observed value, apply the optional ceiling constraint, clamp to the bounds,
and commit only a change larger than 0.001 (recording it). Returns the
adapter and the change dict contribution. -/
def adapt_threshold (ad : DynamicThresholdAdapterV2) (name : String)
    (observed_value adaptation_rate context_mult : ℚ) (inverse : Bool)
    (ceiling_threshold : Option String) (ceiling_margin : ℚ) (now : ℚ) :
    DynamicThresholdAdapterV2 × List (String × ℚ) :=
  match lookupState ad name with
  | Option.none => (ad, [])
  | some state =>
    let base := state.base_value * context_mult
    let delta := if inverse then base - observed_value else observed_value - base
    let new_value := base + adaptation_rate * delta
    let new_value :=
      match ceiling_threshold with
      | some cn =>
        match lookupState ad cn with
        | some cstate => min new_value (cstate.current_value - ceiling_margin)
        | Option.none => new_value
      | Option.none => new_value
    let new_value := clampQ new_value state.min_bound state.max_bound
    if 0.001 < |new_value - state.current_value| then
      let old_value := state.current_value
      let st := { state with current_value := new_value, last_updated := now,
                             update_count := state.update_count + 1 }
      let ad := { ad with states := setState ad.states name st }
      (record_change ad name old_value new_value "adaptation" now,
       [(name, new_value - old_value)])
    else (ad, [])

/-- `_update_histories`: pain goes to the pain manager; the five plain
metric histories append `(now, value)` when the metrics object has the
attribute, trimmed to 100 entries. -/
def update_histories (ad : DynamicThresholdAdapterV2) (metrics : IskraMetrics)
    (now : ℚ) : DynamicThresholdAdapterV2 :=
  let push : List (ℚ × ℚ) → ℚ → List (ℚ × ℚ) := fun h v =>
    let h := h ++ [(now, v)]
    if 100 < h.length then h.drop 1 else h
  { ad with
    pain_history := ad.pain_history.add_pain metrics.pain now
    metric_histories :=
      { drift := push ad.metric_histories.drift metrics.drift
        clarity := push ad.metric_histories.clarity metrics.clarity
        mirror_sync :=
          match metrics.mirror_sync with
          | some v => push ad.metric_histories.mirror_sync v
          | Option.none => ad.metric_histories.mirror_sync
        trust := push ad.metric_histories.trust metrics.trust
        chaos := push ad.metric_histories.chaos metrics.chaos } }

/-- `_get_history_avg` with its default 50-reading window. -/
def history_avg (history : List (ℚ × ℚ)) (window : ℕ) : ℚ :=
  match history with
  | [] => 0.5
  | _ =>
    let recent := takeLast history window
    (recent.map Prod.snd).sum / (recent.length : ℚ)

/-- `_detect_context`: crisis on high pain or very low clarity; recovery
when leaving crisis with pain and clarity recovered; deep reflection /
exploration by phase; otherwise normal. -/
def detect_context (ad : DynamicThresholdAdapterV2) (metrics : IskraMetrics) :
    ThresholdContext :=
  if 0.8 < metrics.pain ∨ metrics.clarity < 0.3 then ThresholdContext.crisis
  else if ad.current_context = ThresholdContext.crisis ∧ metrics.pain < 0.5 ∧
      0.5 < metrics.clarity then ThresholdContext.recovery
  else if ad.current_phase = some PhaseType.phase_4_deep_dive ∨
      ad.current_phase = some PhaseType.phase_5_synthesis then
    ThresholdContext.deep_reflection
  else if ad.current_phase = some PhaseType.phase_3_transition ∧
      0.7 < metrics.clarity then ThresholdContext.exploration
  else ThresholdContext.normal

/-- `_handle_context_change`. -/
def handle_context_change (ad : DynamicThresholdAdapterV2)
    (new_context : ThresholdContext) (now : ℚ) : DynamicThresholdAdapterV2 :=
  { ad with current_context := new_context
            context_duration := now - ad.last_context_change
            last_context_change := now }

/-- `DynamicThresholdAdapterV2.update`: record the phase, update histories,
re-detect the context, then adapt the five tracked thresholds (pain_medium
with a 0.1 ceiling margin under pain_high, clarity_low inversely). Returns
the adapter and the collected change dict. -/
def adapterUpdate (ad : DynamicThresholdAdapterV2) (metrics : IskraMetrics)
    (phase : Option PhaseType) (now : ℚ) :
    DynamicThresholdAdapterV2 × List (String × ℚ) :=
  let ad := { ad with current_phase := phase }
  let ad := update_histories ad metrics now
  let new_context := detect_context ad metrics
  let ad := if new_context ≠ ad.current_context then
      handle_context_change ad new_context now
    else ad
  let ctx_mult := contextMultipliers ad.current_context
  let adaptation_rate := 0.2 * ctx_mult.adaptation_rate_mult
  let ema_pain := ad.pain_history.ema 0.1
  let r1 := adapt_threshold ad "pain_high" ema_pain adaptation_rate
    ctx_mult.pain_high_mult false Option.none 0 now
  let r2 := adapt_threshold r1.1 "pain_medium" ema_pain adaptation_rate
    ctx_mult.pain_medium_mult false (some "pain_high") 0.1 now
  let avg_drift := history_avg r2.1.metric_histories.drift 50
  let r3 := adapt_threshold r2.1 "drift_high" avg_drift adaptation_rate
    ctx_mult.drift_high_mult false Option.none 0 now
  let avg_clarity := history_avg r3.1.metric_histories.clarity 50
  let r4 := adapt_threshold r3.1 "clarity_low" avg_clarity adaptation_rate
    ctx_mult.clarity_low_mult true Option.none 0 now
  let avg_mirror := history_avg r4.1.metric_histories.mirror_sync 50
  let r5 := adapt_threshold r4.1 "mirror_sync_low" avg_mirror adaptation_rate
    ctx_mult.mirror_sync_low_mult false Option.none 0 now
  (r5.1, r1.2 ++ r2.2 ++ r3.2 ++ r4.2 ++ r5.2)

/-- `reset_to_base`: reset one named threshold (or, given `None`, all of
them) to its base value, recording each change. -/
def reset_to_base (ad : DynamicThresholdAdapterV2) (threshold_name : Option String)
    (now : ℚ) : DynamicThresholdAdapterV2 :=
  match threshold_name with
  | some name =>
    match lookupState ad name with
    | some state =>
      let st := { state with current_value := state.base_value }
      let ad := { ad with states := setState ad.states name st }
      record_change ad name state.current_value state.base_value "reset" now
    | Option.none => ad
  | Option.none =>
    ad.states.foldl (fun acc e =>
      let st := { e.2 with current_value := e.2.base_value }
      let acc := { acc with states := setState acc.states e.1 st }
      record_change acc e.1 e.2.current_value e.2.base_value "reset_all" now) ad

/-- Modelled from the spec: `PainMemoryManager.from_state` (source not
under `src/`) rebuilds the bounded pain history from its snapshot; payloads
that are not a list of numeric pairs — including the `None` an absent key
produces — yield an empty history. -/
def pmmFromState (payload : PyVal) : PainMemoryManager :=
  let entries :=
    match payload with
    | PyVal.list items =>
      items.filterMap (fun it =>
        match it with
        | PyVal.list [PyVal.num t, PyVal.num v] => some (t, v)
        | _ => Option.none)
    | _ => []
  { maxlen := 100, entries := entries }

/-- Python tuple/list unpacking `t, v = item`: succeeds exactly on
two-element sequences. -/
def pyUnpack2 : PyVal → Except String (PyVal × PyVal)
  | PyVal.list [a, b] => Except.ok (a, b)
  | PyVal.str s =>
    match s.toList with
    | [c, d] => Except.ok (PyVal.str (String.mk [c]), PyVal.str (String.mk [d]))
    | _ => Except.error "ValueError: cannot unpack"
  | _ => Except.error "ValueError: cannot unpack"

/-- The comprehension `[(float(t), float(v)) for t, v in hist]` of
`DynamicThresholdAdapterV2.from_state`: raises on a non-iterable, on an
element that is not a pair, and on inconvertible components. -/
def restoreMetricHist (hist : PyVal) : Except String (List (ℚ × ℚ)) := do
  let items ← pyIterate hist
  items.mapM (fun it => do
    let tv ← pyUnpack2 it
    let t ← pyFloat tv.1
    let v ← pyFloat tv.2
    pure (t, v))

/-- `self._metric_histories[name] = hist` for the five known keys. -/
def MetricHistories.set (mh : MetricHistories) (name : String)
    (h : List (ℚ × ℚ)) : MetricHistories :=
  match name with
  | "drift" => { mh with drift := h }
  | "clarity" => { mh with clarity := h }
  | "mirror_sync" => { mh with mirror_sync := h }
  | "trust" => { mh with trust := h }
  | "chaos" => { mh with chaos := h }
  | _ => mh

/-- The `name in self._metric_histories` membership test. -/
def MetricHistories.member (name : String) : Bool :=
  name = "drift" ∨ name = "clarity" ∨ name = "mirror_sync" ∨
    name = "trust" ∨ name = "chaos"

/-- `DynamicThresholdAdapterV2.from_state` at restore time `now`: fresh
adapter, known threshold states overwritten with the payload's
`current_value` (verbatim — not clamped to the bounds) and `update_count`,
the context restored with a `ValueError` fallback to `normal`, the pain
history and the known metric histories restored (the latter raising on
inconvertible entries). -/
def adapterFromState (state : PyVal) (now : ℚ) :
    Except String DynamicThresholdAdapterV2 := do
  match state with
  | PyVal.dict kvs =>
    let ad := mkAdapter now
    let ad ←
      match pyDictGet kvs "states" (PyVal.dict []) with
      | PyVal.dict entries =>
        entries.foldlM (fun (acc : DynamicThresholdAdapterV2) kv => do
          match lookupState acc kv.1 with
          | some st =>
            match kv.2 with
            | PyVal.dict dkvs =>
              let st := { st with
                current_value := pyGetNumD dkvs "current_value" st.base_value
                update_count := pyGetNatD dkvs "update_count" 0 }
              pure { acc with states := setState acc.states kv.1 st }
            | _ => Except.error "AttributeError: state entry has no attribute get"
          | Option.none => pure acc) ad
      | _ => Except.error "AttributeError: states value has no attribute items"
    let ctx :=
      match pyDictGet kvs "context" (PyVal.str "normal") with
      | PyVal.str s => thresholdContextOfString s
      | _ => ThresholdContext.normal
    let ad := { ad with current_context := ctx }
    let ad := { ad with pain_history := pmmFromState (pyDictGet kvs "pain_history" PyVal.none) }
    let ad ←
      match pyDictGet kvs "metric_histories" (PyVal.dict []) with
      | PyVal.dict entries =>
        entries.foldlM (fun (acc : DynamicThresholdAdapterV2) kv => do
          if MetricHistories.member kv.1 then
            let h ← restoreMetricHist kv.2
            pure { acc with metric_histories := acc.metric_histories.set kv.1 h }
          else
            pure acc) ad
      | _ => Except.error "AttributeError: metric_histories value has no attribute items"
    Except.ok ad
  | _ => Except.error "AttributeError: state has no attribute get"

/-- One mutating operation on the threshold adapter, for stating state
invariants over call sequences. -/
inductive AdapterOp where
  | update (metrics : IskraMetrics) (phase : Option PhaseType) (now : ℚ)
  | reset (threshold_name : Option String) (now : ℚ)

/-- Run a sequence of `update` / `reset_to_base` calls. -/
def runAdapterOps (ad : DynamicThresholdAdapterV2) : List AdapterOp →
    DynamicThresholdAdapterV2
  | [] => ad
  | AdapterOp.update metrics phase now :: rest =>
    runAdapterOps (adapterUpdate ad metrics phase now).1 rest
  | AdapterOp.reset name now :: rest =>
    runAdapterOps (reset_to_base ad name now) rest

/-! ### Scalar statistics of a sensor

`add_reading` touches the EMAs, the baseline and the sample counter
independently of the history buffers, so those four scalars are projected
out; folds over them stay small enough to evaluate. -/

/-- The four running scalars of a `CalibratedSensor`. -/
structure SensorStats where
  ema_fast : ℚ
  ema_slow : ℚ
  baseline : ℚ
  baseline_samples : ℕ
deriving DecidableEq, Repr

/-- Projection of a sensor onto its running scalars. -/
def CalibratedSensor.stats (s : CalibratedSensor) : SensorStats where
  ema_fast := s.ema_fast
  ema_slow := s.ema_slow
  baseline := s.baseline
  baseline_samples := s.baseline_samples

/-- The effect of one `add_reading` on the running scalars. -/
def statsStep (p : CalibrationProfile) (st : SensorStats) (value : ℚ) : SensorStats :=
  let v := max 0 (min 1 value)
  let st := { st with
    ema_fast := p.ema_fast_alpha * v + (1 - p.ema_fast_alpha) * st.ema_fast
    ema_slow := p.ema_slow_alpha * v + (1 - p.ema_slow_alpha) * st.ema_slow
    baseline_samples := st.baseline_samples + 1 }
  if p.baseline_min_samples ≤ st.baseline_samples then
    { st with baseline :=
        p.baseline_adaptation_rate * v + (1 - p.baseline_adaptation_rate) * st.baseline }
  else st

/-- The severity outcome of `_detect_spike` as a function of the sensor
name, profile, baseline and (clamped) value. -/
def severityOf (name : String) (p : CalibrationProfile) (baseline value : ℚ) :
    Option SpikeSeverity :=
  let abs_deviation := |value - baseline|
  let abs_deviation :=
    if name = "pain" then abs_deviation * p.pain_sensitivity
    else if name = "echo" then abs_deviation * p.echo_sensitivity
    else abs_deviation
  if p.spike_critical_threshold ≤ abs_deviation then some SpikeSeverity.critical
  else if p.spike_severe_threshold ≤ abs_deviation then some SpikeSeverity.severe
  else if p.spike_moderate_threshold ≤ abs_deviation then some SpikeSeverity.moderate
  else if p.spike_minor_threshold ≤ abs_deviation then some SpikeSeverity.minor
  else Option.none

theorem detect_spike_severity (s : CalibratedSensor) (v ts : ℚ) :
    (s.detect_spike v ts).map SpikeEvent.severity = severityOf s.name s.profile s.baseline v := by
  unfold CalibratedSensor.detect_spike severityOf
  dsimp only
  split_ifs <;> rfl

theorem ingest_stats (s : CalibratedSensor) (v ts : ℚ) (src ctx : PyVal) :
    (s.ingest v ts src ctx).stats = statsStep s.profile s.stats v ∧
    (s.ingest v ts src ctx).profile = s.profile ∧
    (s.ingest v ts src ctx).name = s.name := by
  unfold CalibratedSensor.ingest statsStep
  dsimp only [CalibratedSensor.stats]
  split_ifs <;> exact ⟨rfl, rfl, rfl⟩

theorem add_reading_fst_stats (s : CalibratedSensor) (v ts : ℚ) (src ctx : PyVal) :
    (s.add_reading v ts src ctx).1.stats = statsStep s.profile s.stats v ∧
    (s.add_reading v ts src ctx).1.profile = s.profile ∧
    (s.add_reading v ts src ctx).1.name = s.name := by
  refine Eq.mpr ?_ (ingest_stats s v ts src ctx)
  unfold CalibratedSensor.add_reading
  dsimp only
  split <;> rfl

theorem add_reading_snd (s : CalibratedSensor) (v ts : ℚ) (src ctx : PyVal) :
    (s.add_reading v ts src ctx).2 =
      (s.ingest v ts src ctx).detect_spike (max 0 (min 1 v)) ts := by
  unfold CalibratedSensor.add_reading
  dsimp only
  split <;> rename_i heq <;> exact heq.symm

theorem add_reading_severity (s : CalibratedSensor) (v ts : ℚ) (src ctx : PyVal) :
    (s.add_reading v ts src ctx).2.map SpikeEvent.severity =
      severityOf s.name s.profile (statsStep s.profile s.stats v).baseline
        (max 0 (min 1 v)) := by
  rw [add_reading_snd, detect_spike_severity]
  rw [(ingest_stats s v ts src ctx).2.1, (ingest_stats s v ts src ctx).2.2]
  have hb : (s.ingest v ts src ctx).baseline = (statsStep s.profile s.stats v).baseline := by
    have h := congrArg SensorStats.baseline (ingest_stats s v ts src ctx).1
    simpa [CalibratedSensor.stats] using h
  rw [hb]

/-- Feed a list of values (timestamp 0, default `"unknown"` source), as a
caller looping over `add_reading` would. -/
def feedValues (s : CalibratedSensor) (vs : List ℚ) : CalibratedSensor :=
  vs.foldl (fun acc v => (acc.add_reading v 0 (PyVal.str "unknown") PyVal.none).1) s

theorem feedValues_stats (vs : List ℚ) (s : CalibratedSensor) :
    (feedValues s vs).stats = vs.foldl (statsStep s.profile) s.stats ∧
    (feedValues s vs).profile = s.profile ∧
    (feedValues s vs).name = s.name := by
  induction vs generalizing s with
  | nil => exact ⟨rfl, rfl, rfl⟩
  | cons v rest ih =>
    have hs := add_reading_fst_stats s v 0 (PyVal.str "unknown") PyVal.none
    have hr := ih (s.add_reading v 0 (PyVal.str "unknown") PyVal.none).1
    unfold feedValues at hr ⊢
    simp only [List.foldl] at hr ⊢
    rw [hr.1, hr.2.1, hr.2.2, hs.1, hs.2.1, hs.2.2]
    exact ⟨rfl, rfl, rfl⟩

/-! ### The spec's example scenario (claim C1) -/

/-- The example scenario's sensor after the fifteen 0.1 readings: a fresh
`"pain"` sensor on the default profile. -/
def c1Sensor15 : CalibratedSensor :=
  feedValues (mkSensor "pain" defaultProfile 500) (List.replicate 15 0.1)

/-- The example scenario's final `add_reading(0.95)` call. -/
def c1Final : CalibratedSensor × Option SpikeEvent :=
  c1Sensor15.add_reading 0.95 0 (PyVal.str "unknown") PyVal.none

theorem c1Sensor15_profile : c1Sensor15.profile = defaultProfile :=
  (feedValues_stats (List.replicate 15 0.1) (mkSensor "pain" defaultProfile 500)).2.1

theorem c1Sensor15_name : c1Sensor15.name = "pain" :=
  (feedValues_stats (List.replicate 15 0.1) (mkSensor "pain" defaultProfile 500)).2.2

theorem c1Sensor15_stats :
    c1Sensor15.stats =
      { ema_fast := 254747561509943 / 2500000000000000
        ema_slow := 23373127029874798299 / 81920000000000000000
        baseline := 17747537201 / 39062500000
        baseline_samples := 15 } := by
  have h := (feedValues_stats (List.replicate 15 (0.1 : ℚ))
    (mkSensor "pain" defaultProfile 500)).1
  rw [show c1Sensor15.stats = (feedValues (mkSensor "pain" defaultProfile 500)
    (List.replicate 15 0.1)).stats from rfl, h]
  norm_num [statsStep, CalibratedSensor.stats, mkSensor, defaultProfile, List.replicate]

theorem c1Final_stats :
    c1Final.1.stats =
      statsStep defaultProfile
        { ema_fast := 254747561509943 / 2500000000000000
          ema_slow := 23373127029874798299 / 81920000000000000000
          baseline := 17747537201 / 39062500000
          baseline_samples := 15 } 0.95 := by
  have h := (add_reading_fst_stats c1Sensor15 0.95 0 (PyVal.str "unknown") PyVal.none).1
  rw [c1Sensor15_profile, c1Sensor15_stats] at h
  exact h

/-- The severity actually reported at the end of the example scenario. -/
theorem c1Final_severity :
    c1Final.2.map SpikeEvent.severity = some SpikeSeverity.severe := by
  have habs : |(948730052151 : ℚ) / 1953125000000| = 948730052151 / 1953125000000 :=
    abs_of_nonneg (by norm_num)
  rw [show c1Final.2 = (c1Sensor15.add_reading 0.95 0 (PyVal.str "unknown")
    PyVal.none).2 from rfl, add_reading_severity, c1Sensor15_name,
    c1Sensor15_profile, c1Sensor15_stats]
  norm_num [severityOf, statsStep, defaultProfile, habs]

/-- C1, counterexample: in the spec's example scenario — sensor `"pain"`,
default profile, fifteen 0.1 readings then one 0.95 reading — the final
`add_reading` returns a spike of severity `severe`, not `critical` as
claimed: the baseline starts at 0.5 (not near 0.1), so the deviation at
detection is ≈0.486 < 0.60. -/
theorem C1_counterexample :
    c1Final.2.map SpikeEvent.severity = some SpikeSeverity.severe ∧
    SpikeSeverity.severe ≠ SpikeSeverity.critical :=
  ⟨c1Final_severity, by decide⟩

set_option maxRecDepth 4000 in
/-- C1, amended: in the example scenario the final `add_reading` returns a
spike of severity `severe`: the baseline (initialised to 0.5 and adapted
only from the tenth reading on) is ≈0.4642 at detection, the deviation
0.95 − baseline ≈ 0.4857 lies between the severe (0.40) and critical
(0.60) thresholds; in that step `ema_fast` still moves more than
`ema_slow`, and the baseline shifts by `baseline_adaptation_rate` times
(0.95 − previous baseline) ≈ 0.0099. -/
theorem C1_amended :
    c1Final.2.map SpikeEvent.severity = some SpikeSeverity.severe ∧
    c1Final.1.baseline = 906738697849 / 1953125000000 ∧
    defaultProfile.spike_severe_threshold ≤ 0.95 - c1Final.1.baseline ∧
    0.95 - c1Final.1.baseline < defaultProfile.spike_critical_threshold ∧
    c1Final.1.ema_slow - c1Sensor15.ema_slow < c1Final.1.ema_fast - c1Sensor15.ema_fast ∧
    c1Final.1.baseline - c1Sensor15.baseline =
      defaultProfile.baseline_adaptation_rate * (0.95 - c1Sensor15.baseline) := by
  have hb : c1Final.1.baseline =
      (statsStep defaultProfile
        { ema_fast := 254747561509943 / 2500000000000000
          ema_slow := 23373127029874798299 / 81920000000000000000
          baseline := 17747537201 / 39062500000
          baseline_samples := 15 } 0.95).baseline :=
    congrArg SensorStats.baseline c1Final_stats
  have hef : c1Final.1.ema_fast =
      (statsStep defaultProfile
        { ema_fast := 254747561509943 / 2500000000000000
          ema_slow := 23373127029874798299 / 81920000000000000000
          baseline := 17747537201 / 39062500000
          baseline_samples := 15 } 0.95).ema_fast :=
    congrArg SensorStats.ema_fast c1Final_stats
  have hes : c1Final.1.ema_slow =
      (statsStep defaultProfile
        { ema_fast := 254747561509943 / 2500000000000000
          ema_slow := 23373127029874798299 / 81920000000000000000
          baseline := 17747537201 / 39062500000
          baseline_samples := 15 } 0.95).ema_slow :=
    congrArg SensorStats.ema_slow c1Final_stats
  have hb15 : c1Sensor15.baseline = 17747537201 / 39062500000 :=
    congrArg SensorStats.baseline c1Sensor15_stats
  have hef15 : c1Sensor15.ema_fast = 254747561509943 / 2500000000000000 :=
    congrArg SensorStats.ema_fast c1Sensor15_stats
  have hes15 : c1Sensor15.ema_slow = 23373127029874798299 / 81920000000000000000 :=
    congrArg SensorStats.ema_slow c1Sensor15_stats
  refine ⟨c1Final_severity, ?_, ?_, ?_, ?_, ?_⟩ <;>
    simp only [hb, hef, hes, hb15, hef15, hes15] <;>
    norm_num [statsStep, defaultProfile]

/-! ### Clamping (claim C6) -/

theorem dequeAppend_getLast (maxlen : ℕ) (h : 0 < maxlen) (xs : List α) (x : α) :
    (dequeAppend maxlen xs x).getLast? = some x := by
  unfold dequeAppend
  dsimp only
  rw [List.drop_append_of_le_length (by simp; omega)]
  exact List.getLast?_concat _

theorem ingest_history (s : CalibratedSensor) (v ts : ℚ) (src ctx : PyVal) :
    (s.ingest v ts src ctx).history =
      dequeAppend s.maxlen s.history
        { value := max 0 (min 1 v), timestamp := ts, source := src, context := ctx } ∧
    (s.ingest v ts src ctx).maxlen = s.maxlen := by
  unfold CalibratedSensor.ingest
  dsimp only
  split_ifs <;> exact ⟨rfl, rfl⟩

theorem add_reading_history (s : CalibratedSensor) (v ts : ℚ) (src ctx : PyVal) :
    (s.add_reading v ts src ctx).1.history = (s.ingest v ts src ctx).history := by
  unfold CalibratedSensor.add_reading
  dsimp only
  split <;> rfl

/-- C6: for every input value (out-of-range included), `add_reading` is
total (the embedding is a Lean function — the Python method has no raising
path) and the reading appended to the history carries the clamped value
`max 0 (min 1 v)`, which always lies in [0,1]. The hypothesis `0 < maxlen`
only rules out the degenerate zero-capacity deque (the class always uses
500), under which the appended reading is immediately evicted again. -/
theorem C6_clamping (s : CalibratedSensor) (v ts : ℚ) (src ctx : PyVal)
    (h : 0 < s.maxlen) :
    (s.add_reading v ts src ctx).1.history.getLast? =
      some { value := max 0 (min 1 v), timestamp := ts, source := src,
             context := ctx } ∧
    (0 : ℚ) ≤ max 0 (min 1 v) ∧ max 0 (min 1 v) ≤ 1 := by
  refine ⟨?_, le_max_left 0 _, max_le (by norm_num) (min_le_left 1 v)⟩
  rw [add_reading_history, (ingest_history s v ts src ctx).1]
  exact dequeAppend_getLast s.maxlen h s.history _

/-- Witness for C6 at sensor `pain`, default profile, input 7. -/
theorem C6_clamping_witness :
    0 < (mkSensor "pain" defaultProfile 500).maxlen ∧
    (((mkSensor "pain" defaultProfile 500).add_reading 7 0 (PyVal.str "unknown")
        PyVal.none).1.history.getLast? =
      some { value := max 0 (min 1 7), timestamp := 0,
             source := PyVal.str "unknown", context := PyVal.none } ∧
    (0 : ℚ) ≤ max 0 (min 1 7) ∧ max 0 (min 1 7) ≤ (1 : ℚ)) :=
  ⟨by norm_num [mkSensor],
   C6_clamping (mkSensor "pain" defaultProfile 500) 7 0 (PyVal.str "unknown")
     PyVal.none (by norm_num [mkSensor])⟩

/-! ### EMA bounds (claim C7) -/

/-- The four profiles of the registry. -/
def registryProfiles : List CalibrationProfile :=
  [defaultProfile, sensitiveProfile, relaxedProfile, crisisProfile]

theorem lookupProfile_mem (n : String) (p : CalibrationProfile)
    (h : lookupProfile n = some p) : p ∈ registryProfiles := by
  unfold lookupProfile CALIBRATION_PROFILES at h
  simp only [List.lookup] at h
  repeat' split at h
  all_goals simp_all [registryProfiles]

theorem registry_alpha_bounds (p : CalibrationProfile) (hp : p ∈ registryProfiles) :
    0 ≤ p.ema_fast_alpha ∧ p.ema_fast_alpha ≤ 1 ∧
    0 ≤ p.ema_slow_alpha ∧ p.ema_slow_alpha ≤ 1 := by
  simp only [registryProfiles, List.mem_cons, List.not_mem_nil, or_false] at hp
  rcases hp with rfl | rfl | rfl | rfl <;>
    norm_num [defaultProfile, sensitiveProfile, relaxedProfile, crisisProfile]

theorem convex_step_bounds (alpha v e : ℚ) (ha0 : 0 ≤ alpha) (ha1 : alpha ≤ 1)
    (hv0 : 0 ≤ v) (hv1 : v ≤ 1) (he0 : 0 ≤ e) (he1 : e ≤ 1) :
    0 ≤ alpha * v + (1 - alpha) * e ∧ alpha * v + (1 - alpha) * e ≤ 1 := by
  constructor
  · have h1 : 0 ≤ alpha * v := mul_nonneg ha0 hv0
    have h2 : 0 ≤ (1 - alpha) * e := mul_nonneg (by linarith) he0
    linarith
  · nlinarith

/-- A mutation of one sensor by its two public mutators. -/
inductive SensorEvent where
  | reading (v ts : ℚ)
  | set_profile (name : String)

/-- Run a sequence of `add_reading` / `set_profile` calls. -/
def runSensor (s : CalibratedSensor) : List SensorEvent → CalibratedSensor
  | [] => s
  | SensorEvent.reading v ts :: rest =>
    runSensor (s.add_reading v ts (PyVal.str "unknown") PyVal.none).1 rest
  | SensorEvent.set_profile n :: rest => runSensor (s.set_profile n) rest

theorem statsStep_ema (p : CalibrationProfile) (st : SensorStats) (v : ℚ) :
    (statsStep p st v).ema_fast =
      p.ema_fast_alpha * (max 0 (min 1 v)) + (1 - p.ema_fast_alpha) * st.ema_fast ∧
    (statsStep p st v).ema_slow =
      p.ema_slow_alpha * (max 0 (min 1 v)) + (1 - p.ema_slow_alpha) * st.ema_slow := by
  unfold statsStep
  dsimp only
  split_ifs <;> exact ⟨rfl, rfl⟩

theorem runSensor_ema_inv (events : List SensorEvent) (s : CalibratedSensor)
    (hp : s.profile ∈ registryProfiles)
    (hf0 : 0 ≤ s.ema_fast) (hf1 : s.ema_fast ≤ 1)
    (hs0 : 0 ≤ s.ema_slow) (hs1 : s.ema_slow ≤ 1) :
    0 ≤ (runSensor s events).ema_fast ∧ (runSensor s events).ema_fast ≤ 1 ∧
    0 ≤ (runSensor s events).ema_slow ∧ (runSensor s events).ema_slow ≤ 1 := by
  induction events generalizing s with
  | nil => exact ⟨hf0, hf1, hs0, hs1⟩
  | cons ev rest ih =>
    cases ev with
    | reading v ts =>
      have hst := (add_reading_fst_stats s v ts (PyVal.str "unknown") PyVal.none).1
      have hpr := (add_reading_fst_stats s v ts (PyVal.str "unknown") PyVal.none).2.1
      have hemaf := congrArg SensorStats.ema_fast hst
      have hemas := congrArg SensorStats.ema_slow hst
      have halpha := registry_alpha_bounds s.profile hp
      have hv0 : (0 : ℚ) ≤ max 0 (min 1 v) := le_max_left 0 _
      have hv1 : max 0 (min 1 v) ≤ 1 := max_le (by norm_num) (min_le_left 1 v)
      have hfastEq := (statsStep_ema s.profile s.stats v).1
      have hslowEq := (statsStep_ema s.profile s.stats v).2
      have hfast := convex_step_bounds s.profile.ema_fast_alpha (max 0 (min 1 v))
        s.ema_fast halpha.1 halpha.2.1 hv0 hv1 hf0 hf1
      have hslow := convex_step_bounds s.profile.ema_slow_alpha (max 0 (min 1 v))
        s.ema_slow halpha.2.2.1 halpha.2.2.2 hv0 hv1 hs0 hs1
      refine ih _ (by rw [hpr]; exact hp) ?_ ?_ ?_ ?_
      · show (0:ℚ) ≤ ((s.add_reading v ts (PyVal.str "unknown") PyVal.none).1.stats).ema_fast
        rw [hst, hfastEq]
        exact hfast.1
      · show ((s.add_reading v ts (PyVal.str "unknown") PyVal.none).1.stats).ema_fast ≤ 1
        rw [hst, hfastEq]
        exact hfast.2
      · show (0:ℚ) ≤ ((s.add_reading v ts (PyVal.str "unknown") PyVal.none).1.stats).ema_slow
        rw [hst, hslowEq]
        exact hslow.1
      · show ((s.add_reading v ts (PyVal.str "unknown") PyVal.none).1.stats).ema_slow ≤ 1
        rw [hst, hslowEq]
        exact hslow.2
    | set_profile n =>
      have he : (s.set_profile n).ema_fast = s.ema_fast ∧
          (s.set_profile n).ema_slow = s.ema_slow := by
        unfold CalibratedSensor.set_profile
        cases lookupProfile n <;> exact ⟨rfl, rfl⟩
      have hq : (s.set_profile n).profile ∈ registryProfiles := by
        unfold CalibratedSensor.set_profile
        cases hl : lookupProfile n with
        | some q => simp only; exact lookupProfile_mem n q hl
        | none => simp only; exact hp
      exact ih _ hq (he.1 ▸ hf0) (he.1 ▸ hf1) (he.2 ▸ hs0) (he.2 ▸ hs1)

/-- C7: starting from a fresh sensor (EMAs initialised at 0.5), under any
registry profile and any sequence of `add_reading` and `set_profile` calls
— with arbitrary, even out-of-range, reading values, which clamping maps
into [0,1] — both `ema_fast` and `ema_slow` stay within [0,1]. -/
theorem C7_ema_bounds (name : String) (p0 : CalibrationProfile) (maxlen : ℕ)
    (events : List SensorEvent) (h0 : p0 ∈ registryProfiles) :
    0 ≤ (runSensor (mkSensor name p0 maxlen) events).ema_fast ∧
    (runSensor (mkSensor name p0 maxlen) events).ema_fast ≤ 1 ∧
    0 ≤ (runSensor (mkSensor name p0 maxlen) events).ema_slow ∧
    (runSensor (mkSensor name p0 maxlen) events).ema_slow ≤ 1 :=
  runSensor_ema_inv events (mkSensor name p0 maxlen) h0
    (by norm_num [mkSensor]) (by norm_num [mkSensor])
    (by norm_num [mkSensor]) (by norm_num [mkSensor])

/-- Witness for C7: crisis profile, an out-of-range and an in-range reading
around a profile switch. -/
theorem C7_ema_bounds_witness :
    crisisProfile ∈ registryProfiles ∧
    (0 ≤ (runSensor (mkSensor "echo" crisisProfile 500)
        [SensorEvent.reading 7 0, SensorEvent.set_profile "relaxed",
         SensorEvent.reading (-2) 1]).ema_fast ∧
    (runSensor (mkSensor "echo" crisisProfile 500)
        [SensorEvent.reading 7 0, SensorEvent.set_profile "relaxed",
         SensorEvent.reading (-2) 1]).ema_fast ≤ 1 ∧
    0 ≤ (runSensor (mkSensor "echo" crisisProfile 500)
        [SensorEvent.reading 7 0, SensorEvent.set_profile "relaxed",
         SensorEvent.reading (-2) 1]).ema_slow ∧
    (runSensor (mkSensor "echo" crisisProfile 500)
        [SensorEvent.reading 7 0, SensorEvent.set_profile "relaxed",
         SensorEvent.reading (-2) 1]).ema_slow ≤ 1) :=
  ⟨by simp [registryProfiles],
   C7_ema_bounds "echo" crisisProfile 500
     [SensorEvent.reading 7 0, SensorEvent.set_profile "relaxed",
      SensorEvent.reading (-2) 1] (by simp [registryProfiles])⟩

/-! ### Spike tier monotonicity (claim C8) -/

/-- Numeric order on severity outcomes:
none < minor < moderate < severe < critical. -/
def severityRank : Option SpikeSeverity → ℕ
  | Option.none => 0
  | some SpikeSeverity.minor => 1
  | some SpikeSeverity.moderate => 2
  | some SpikeSeverity.severe => 3
  | some SpikeSeverity.critical => 4

/-- The threshold cascade of `_detect_spike` as a function of the already
scaled absolute deviation. -/
def classifySeverity (p : CalibrationProfile) (d : ℚ) : Option SpikeSeverity :=
  if p.spike_critical_threshold ≤ d then some SpikeSeverity.critical
  else if p.spike_severe_threshold ≤ d then some SpikeSeverity.severe
  else if p.spike_moderate_threshold ≤ d then some SpikeSeverity.moderate
  else if p.spike_minor_threshold ≤ d then some SpikeSeverity.minor
  else Option.none

/-- The sensitivity multiplier `_detect_spike` applies for a sensor name. -/
def sensitivityFactor (name : String) (p : CalibrationProfile) : ℚ :=
  if name = "pain" then p.pain_sensitivity
  else if name = "echo" then p.echo_sensitivity
  else 1

theorem severityOf_eq_classify (name : String) (p : CalibrationProfile) (b v : ℚ) :
    severityOf name p b v = classifySeverity p (|v - b| * sensitivityFactor name p) := by
  unfold severityOf classifySeverity sensitivityFactor
  dsimp only
  split_ifs <;> simp_all [mul_one] <;> linarith

theorem classify_mono (p : CalibrationProfile) (d1 d2 : ℚ) (h : d1 ≤ d2) :
    severityRank (classifySeverity p d1) ≤ severityRank (classifySeverity p d2) := by
  unfold classifySeverity
  split_ifs <;> simp_all [severityRank] <;> linarith

theorem classify_none_of_nonpos (p : CalibrationProfile)
    (hm : 0 < p.spike_minor_threshold)
    (h1 : p.spike_minor_threshold < p.spike_moderate_threshold)
    (h2 : p.spike_moderate_threshold < p.spike_severe_threshold)
    (h3 : p.spike_severe_threshold < p.spike_critical_threshold)
    (d : ℚ) (hd : d ≤ 0) : classifySeverity p d = Option.none := by
  unfold classifySeverity
  split_ifs <;> first | rfl | linarith

/-- C8: for a fixed sensor state (hence fixed baseline, name, profile) with
strictly ordered positive spike thresholds, a larger absolute deviation
|value − baseline| never yields a lower severity tier, in the order
none ≤ minor ≤ moderate ≤ severe ≤ critical. -/
theorem C8_tier_monotonicity (s : CalibratedSensor) (v1 v2 ts1 ts2 : ℚ)
    (hm : 0 < s.profile.spike_minor_threshold)
    (h1 : s.profile.spike_minor_threshold < s.profile.spike_moderate_threshold)
    (h2 : s.profile.spike_moderate_threshold < s.profile.spike_severe_threshold)
    (h3 : s.profile.spike_severe_threshold < s.profile.spike_critical_threshold)
    (hdev : |v1 - s.baseline| ≤ |v2 - s.baseline|) :
    severityRank ((s.detect_spike v1 ts1).map SpikeEvent.severity) ≤
      severityRank ((s.detect_spike v2 ts2).map SpikeEvent.severity) := by
  rw [detect_spike_severity, detect_spike_severity, severityOf_eq_classify,
    severityOf_eq_classify]
  rcases le_or_lt 0 (sensitivityFactor s.name s.profile) with hk | hk
  · exact classify_mono s.profile _ _ (mul_le_mul_of_nonneg_right hdev hk)
  · rw [classify_none_of_nonpos s.profile hm h1 h2 h3 _
      (mul_nonpos_of_nonneg_of_nonpos (abs_nonneg _) hk.le),
      classify_none_of_nonpos s.profile hm h1 h2 h3 _
      (mul_nonpos_of_nonneg_of_nonpos (abs_nonneg _) hk.le)]

/-- Witness for C8: default-profile pain sensor at baseline 0.5, deviations
0.1 (no spike) and 0.45 (severe). -/
theorem C8_tier_monotonicity_witness :
    (0 < defaultProfile.spike_minor_threshold ∧
     defaultProfile.spike_minor_threshold < defaultProfile.spike_moderate_threshold ∧
     defaultProfile.spike_moderate_threshold < defaultProfile.spike_severe_threshold ∧
     defaultProfile.spike_severe_threshold < defaultProfile.spike_critical_threshold ∧
     |0.6 - (mkSensor "pain" defaultProfile 500).baseline| ≤
       |0.95 - (mkSensor "pain" defaultProfile 500).baseline|) ∧
    severityRank (((mkSensor "pain" defaultProfile 500).detect_spike 0.6 0).map
        SpikeEvent.severity) ≤
      severityRank (((mkSensor "pain" defaultProfile 500).detect_spike 0.95 0).map
        SpikeEvent.severity) :=
  ⟨⟨by norm_num [defaultProfile], by norm_num [defaultProfile],
    by norm_num [defaultProfile], by norm_num [defaultProfile],
    by norm_num [mkSensor, abs]⟩,
   C8_tier_monotonicity (mkSensor "pain" defaultProfile 500) 0.6 0.95 0 0
     (by norm_num [mkSensor, defaultProfile]) (by norm_num [mkSensor, defaultProfile])
     (by norm_num [mkSensor, defaultProfile]) (by norm_num [mkSensor, defaultProfile])
     (by norm_num [mkSensor, abs])⟩

/-! ### Correlation symmetry (claim C9) -/

theorem pearson_comm (va vb : List ℝ) (n : ℕ) : pearson va vb n = pearson vb va n := by
  unfold pearson
  dsimp only
  rw [List.zipWith_comm]
  have hf : (fun (b a : ℝ) => (a - va.sum / (n : ℝ)) * (b - vb.sum / (n : ℝ))) =
      fun (b a : ℝ) => (b - vb.sum / (n : ℝ)) * (a - va.sum / (n : ℝ)) := by
    funext b a
    ring
  rw [hf]
  exact if_congr or_comm rfl (by ring)

/-- C9: for any manager state, any two sensor names (known or not) and any
window, `get_correlation` is symmetric in its two sensor arguments. -/
theorem C9_correlation_symm (m : SensorCalibrationManager)
    (sensor_a sensor_b : String) (window : ℕ) :
    get_correlation m sensor_a sensor_b window =
      get_correlation m sensor_b sensor_a window := by
  unfold get_correlation
  cases hA : m.sensors.lookup sensor_a <;> cases hB : m.sensors.lookup sensor_b
  · rfl
  · rfl
  · rfl
  · rename_i sa sb
    dsimp only
    by_cases ha3 : (takeLast sa.history window).length < 3
    · simp [ha3]
    · by_cases hb3 : (takeLast sb.history window).length < 3
      · simp [ha3, hb3]
      · simp only [ha3, hb3, or_self, if_false, false_or, or_false]
        rw [Nat.min_comm (takeLast sb.history window).length
          (takeLast sa.history window).length]
        exact pearson_comm _ _ _

/-! ### Snapshot/restore round trip (claim C10) -/

/-- The `(timestamp, value, source)` triple `to_state` writes per reading. -/
def encodeReading (r : SensorReading) : PyVal :=
  PyVal.list [PyVal.num r.timestamp, PyVal.num r.value, r.source]

/-- The reading `from_state` rebuilds from such a triple: same timestamp,
value and source, with the context reset to `None`. -/
def decodeReading (r : SensorReading) : SensorReading :=
  { value := r.value, timestamp := r.timestamp, source := r.source,
    context := PyVal.none }

theorem dequeAppend_of_lt (m : ℕ) (xs : List α) (x : α) (h : xs.length < m) :
    dequeAppend m xs x = xs ++ [x] := by
  unfold dequeAppend
  dsimp only
  rw [List.length_append, List.length_singleton,
    Nat.sub_eq_zero_of_le (by omega), List.drop_zero]

theorem takeLast_length_le (xs : List α) (n : ℕ) : (takeLast xs n).length ≤ n := by
  simp [takeLast]
  omega

theorem restoreHistory_encodes (rs : List SensorReading) :
    ∀ acc : List SensorReading, acc.length + rs.length ≤ 500 →
      restoreHistory 500 (rs.map encodeReading) acc =
        Except.ok (acc ++ rs.map decodeReading) := by
  induction rs with
  | nil =>
    intro acc _
    simp [restoreHistory]
  | cons r rest ih =>
    intro acc hle
    have hlt : acc.length < 500 := by simp at hle; omega
    have hrec := ih (acc ++ [decodeReading r]) (by simp at hle ⊢; omega)
    simp only [decodeReading] at hrec
    simp only [List.map_cons, restoreHistory, encodeReading]
    norm_num [pyLen, pyIndex, pyFloat, Except.bind, bind, pure, Except.pure, List.get?]
    rw [dequeAppend_of_lt 500 acc _ hlt, hrec]
    simp [decodeReading]

/-- The sensor the C10 round trip is expected (from the spec's description)
to produce: the scalar statistics preserved exactly, the history reduced to
the last 100 readings with their timestamp, value and source (context
dropped), and everything else — spike history, trend slope memory, readings
older than the last 100 — freshly initialised. -/
def specRestoredSensor (s : CalibratedSensor) : CalibratedSensor :=
  { mkSensor s.name ((lookupProfile s.profile.name).getD defaultProfile) 500 with
    history := (takeLast s.history 100).map decodeReading
    ema_fast := s.ema_fast
    ema_slow := s.ema_slow
    baseline := s.baseline
    baseline_samples := s.baseline_samples
    total_readings := s.total_readings
    total_spikes := s.total_spikes }

/-- C10: for every sensor state, `from_state (to_state s)` succeeds and
reproduces `ema_fast`, `ema_slow`, `baseline`, `baseline_samples`,
`total_readings` and `total_spikes` exactly, and the history only up to the
most recent 100 readings (timestamp, value and source each preserved);
the restored sensor has an empty `spike_history` and a zero trend-slope
memory regardless of the original, so spike history, older readings and the
stored last slope are not preserved. -/
theorem C10_roundtrip (s : CalibratedSensor) :
    sensorFromState s.to_state = Except.ok (specRestoredSensor s) ∧
    (specRestoredSensor s).spike_history = [] ∧
    (specRestoredSensor s).last_slope = 0 ∧
    (specRestoredSensor s).history = (takeLast s.history 100).map decodeReading := by
  refine ⟨?_, rfl, rfl, rfl⟩
  have hstate : sensorFromState s.to_state =
      (restoreHistory 500 ((takeLast s.history 100).map encodeReading) []).bind
        (fun hist => Except.ok
          { mkSensor s.name ((lookupProfile s.profile.name).getD defaultProfile) 500 with
            history := hist
            ema_fast := s.ema_fast
            ema_slow := s.ema_slow
            baseline := s.baseline
            baseline_samples := (Rat.floor ((s.baseline_samples : ℚ))).toNat
            total_readings := (Rat.floor ((s.total_readings : ℚ))).toNat
            total_spikes := (Rat.floor ((s.total_spikes : ℚ))).toNat }) := rfl
  rw [hstate, restoreHistory_encodes (takeLast s.history 100) []
    (by have := takeLast_length_le s.history 100; simp; omega)]
  simp only [Except.bind, List.nil_append]
  unfold specRestoredSensor
  congr 1

/-! ### Malformed-restore behaviour (claim C4) -/

/-- C4, counterexample: a persisted payload whose pain-sensor history holds
the entry `(None, None)` makes the whole manager restore raise
(`float(None)` is a `TypeError`); the bad entry is not skipped and no
partial restore survives. -/
theorem C4_counterexample :
    managerFromState (PyVal.dict [("sensors", PyVal.dict [("pain", PyVal.dict
        [("history", PyVal.list [PyVal.list [PyVal.none, PyVal.none]])])])]) =
      Except.error "TypeError: float() argument is None" := rfl

/-- C4, amended: the restore tolerates missing keys (defaults) and skips
history entries with fewer than two elements, but a history entry whose
timestamp or value does not convert to float raises and aborts the whole
restore — there is no per-entry skip-with-warning for such entries. -/
theorem C4_amended :
    sensorFromState (PyVal.dict []) =
      Except.ok (mkSensor "unknown" defaultProfile 500) ∧
    sensorFromState (PyVal.dict [("history",
        PyVal.list [PyVal.list [PyVal.num 1], PyVal.list [PyVal.num 2, PyVal.num 3]])]) =
      Except.ok { mkSensor "unknown" defaultProfile 500 with
        history := [{ value := 3, timestamp := 2, source := PyVal.str "restored",
                      context := PyVal.none }] } ∧
    sensorFromState (PyVal.dict [("history",
        PyVal.list [PyVal.list [PyVal.none, PyVal.none]])]) =
      Except.error "TypeError: float() argument is None" :=
  ⟨rfl, rfl, rfl⟩

/-! ### Global profile switching (claim C5) -/

/-- Every one of the five sensors carries the given profile. -/
def Sensors.allProfile (ss : Sensors) (p : CalibrationProfile) : Prop :=
  ss.pain.profile = p ∧ ss.echo.profile = p ∧ ss.drift.profile = p ∧
  ss.clarity.profile = p ∧ ss.mirror_sync.profile = p

/-- C5, counterexample: `set_global_profile` with a name outside the
profile registry records the name but changes no sensor's profile even
outside crisis mode — the named profile is not applied to the sensors. -/
theorem C5_counterexample :
    mkManager.crisis_mode = false ∧
    (set_global_profile mkManager "turbo").current_profile = "turbo" ∧
    (set_global_profile mkManager "turbo").sensors.pain.profile.name = "default" ∧
    "default" ≠ "turbo" := by
  refine ⟨rfl, rfl, rfl, ?_⟩
  decide

theorem set_profile_of_lookup (s : CalibratedSensor) (n : String)
    (p : CalibrationProfile) (hp : lookupProfile n = some p) :
    s.set_profile n = { s with profile := p } := by
  unfold CalibratedSensor.set_profile
  rw [hp]

/-- C5, amended: for a profile name present in the registry,
`set_global_profile(name)` records it as `current_profile_name`; outside
crisis mode it immediately applies the named profile to every sensor; in
crisis mode it changes no sensor at the time of the call, and the recorded
profile is applied to all sensors once crisis mode is deactivated. For a
name outside the registry only the recording happens (per-sensor no-op). -/
theorem C5_deferred_profile (m : SensorCalibrationManager) (name : String)
    (p : CalibrationProfile) (hp : lookupProfile name = some p) :
    (set_global_profile m name).current_profile = name ∧
    (m.crisis_mode = false →
      (set_global_profile m name).sensors.allProfile p) ∧
    (m.crisis_mode = true →
      (set_global_profile m name).sensors = m.sensors ∧
      (deactivate_crisis_mode (set_global_profile m name)).sensors.allProfile p) := by
  unfold set_global_profile
  dsimp only
  cases hc : m.crisis_mode with
  | true =>
    rw [if_neg (by simp [hc])]
    refine ⟨rfl, fun h => Bool.noConfusion h, fun _ => ⟨rfl, ?_⟩⟩
    · unfold deactivate_crisis_mode Sensors.map Sensors.allProfile
      dsimp only
      rw [set_profile_of_lookup _ _ _ hp, set_profile_of_lookup _ _ _ hp,
        set_profile_of_lookup _ _ _ hp, set_profile_of_lookup _ _ _ hp,
        set_profile_of_lookup _ _ _ hp]
      exact ⟨rfl, rfl, rfl, rfl, rfl⟩
  | false =>
    rw [if_pos (by simp [hc])]
    refine ⟨rfl, fun _ => ?_, fun h => Bool.noConfusion h⟩
    unfold Sensors.map Sensors.allProfile
    dsimp only
    rw [set_profile_of_lookup _ _ _ hp, set_profile_of_lookup _ _ _ hp,
      set_profile_of_lookup _ _ _ hp, set_profile_of_lookup _ _ _ hp,
      set_profile_of_lookup _ _ _ hp]
    exact ⟨rfl, rfl, rfl, rfl, rfl⟩

/-- Witness for C5 at a crisis-mode manager and the registered name
`relaxed`. -/
theorem C5_deferred_profile_witness :
    lookupProfile "relaxed" = some relaxedProfile ∧
    ((set_global_profile { mkManager with crisis_mode := true }
        "relaxed").current_profile = "relaxed" ∧
    (({ mkManager with crisis_mode := true } :
        SensorCalibrationManager).crisis_mode = false →
      (set_global_profile { mkManager with crisis_mode := true }
        "relaxed").sensors.allProfile relaxedProfile) ∧
    (({ mkManager with crisis_mode := true } :
        SensorCalibrationManager).crisis_mode = true →
      (set_global_profile { mkManager with crisis_mode := true }
        "relaxed").sensors = ({ mkManager with crisis_mode := true } :
          SensorCalibrationManager).sensors ∧
      (deactivate_crisis_mode (set_global_profile
        { mkManager with crisis_mode := true }
        "relaxed")).sensors.allProfile relaxedProfile)) :=
  ⟨rfl, C5_deferred_profile { mkManager with crisis_mode := true } "relaxed"
    relaxedProfile rfl⟩

/-! ### Crisis transitions (claim C2) -/

theorem feedMetrics_flag (m : SensorCalibrationManager) (metrics : IskraMetrics)
    (ts : ℚ) :
    (feedMetrics m metrics ts).1.crisis_mode = m.crisis_mode ∧
    (feedMetrics m metrics ts).1.current_profile = m.current_profile :=
  ⟨rfl, rfl⟩

theorem activate_profiles (m : SensorCalibrationManager) :
    (activate_crisis_mode m).crisis_mode = true ∧
    (activate_crisis_mode m).sensors.allProfile crisisProfile := by
  unfold activate_crisis_mode Sensors.map Sensors.allProfile
  dsimp only
  rw [set_profile_of_lookup _ _ _ (show lookupProfile "crisis" = some crisisProfile
    from rfl), set_profile_of_lookup _ _ _ (show lookupProfile "crisis" =
    some crisisProfile from rfl), set_profile_of_lookup _ _ _
    (show lookupProfile "crisis" = some crisisProfile from rfl),
    set_profile_of_lookup _ _ _ (show lookupProfile "crisis" =
    some crisisProfile from rfl), set_profile_of_lookup _ _ _
    (show lookupProfile "crisis" = some crisisProfile from rfl)]
  exact ⟨rfl, rfl, rfl, rfl, rfl, rfl⟩

theorem deactivate_profiles (m : SensorCalibrationManager) (p : CalibrationProfile)
    (hp : lookupProfile m.current_profile = some p) :
    (deactivate_crisis_mode m).crisis_mode = false ∧
    (deactivate_crisis_mode m).sensors.allProfile p := by
  unfold deactivate_crisis_mode Sensors.map Sensors.allProfile
  dsimp only
  rw [set_profile_of_lookup _ _ _ hp, set_profile_of_lookup _ _ _ hp,
    set_profile_of_lookup _ _ _ hp, set_profile_of_lookup _ _ _ hp,
    set_profile_of_lookup _ _ _ hp]
  exact ⟨rfl, rfl, rfl, rfl, rfl, rfl⟩

/-- C2, amended: after `update_from_metrics` feeds the batch, the crisis
flag follows exactly the two claimed transition rules — it becomes `true`
from `normal` exactly when the batch holds at least two severe/critical
spikes, and it returns to `normal` from `crisis` exactly when the pain
sensor reads below 0.5 with a non-rising trend; no other condition changes
it. On activation every sensor is forced to the `crisis` profile; on
deactivation every sensor's profile reverts to the registry profile named
by `current_profile_name`, provided that name is registered (for an
unregistered recorded name the per-sensor switch is a no-op, which is the
correction); in `normal` mode without activation the manager is left
exactly as fed. -/
theorem C2_crisis_transitions (m : SensorCalibrationManager)
    (metrics : IskraMetrics) (ts : ℚ) (p : CalibrationProfile)
    (hp : lookupProfile m.current_profile = some p) :
    ((update_from_metrics m metrics ts).1.crisis_mode =
      (if m.crisis_mode
        then !(painRecoveryCheck (feedMetrics m metrics ts).1.sensors.pain).1
        else decide (2 ≤ countSevereOrCritical (feedMetrics m metrics ts).2))) ∧
    (m.crisis_mode = false →
      2 ≤ countSevereOrCritical (feedMetrics m metrics ts).2 →
      (update_from_metrics m metrics ts).1.sensors.allProfile crisisProfile) ∧
    (m.crisis_mode = true →
      (painRecoveryCheck (feedMetrics m metrics ts).1.sensors.pain).1 = true →
      (update_from_metrics m metrics ts).1.sensors.allProfile p) ∧
    (m.crisis_mode = false →
      countSevereOrCritical (feedMetrics m metrics ts).2 < 2 →
      (update_from_metrics m metrics ts).1 = (feedMetrics m metrics ts).1) := by
  unfold update_from_metrics
  dsimp only
  unfold check_crisis_conditions
  rw [(feedMetrics_flag m metrics ts).1]
  cases hc : m.crisis_mode with
  | false =>
    simp only [Bool.false_eq_true, if_false]
    by_cases h2 : 2 ≤ countSevereOrCritical (feedMetrics m metrics ts).2
    · rw [if_pos ⟨h2, by simp⟩]
      refine ⟨?_, fun _ _ => (activate_profiles _).2, ?_, fun _ hlt => absurd h2 (by omega)⟩
      · rw [(activate_profiles _).1]
        simp [h2]
      · intro h
        exact absurd h (by simp)
    · rw [if_neg (fun hand => h2 hand.1)]
      refine ⟨?_, fun _ hle => absurd hle h2, ?_, fun _ _ => rfl⟩
      · rw [(feedMetrics_flag m metrics ts).1, hc]
        simp [h2]
      · intro h
        exact absurd h (by simp)
  | true =>
    simp only [eq_self_iff_true, if_true, not_true, and_false, if_false]
    rcases Bool.eq_false_or_eq_true
      (painRecoveryCheck (feedMetrics m metrics ts).1.sensors.pain).1 with hpr | hpr
    · rw [if_pos hpr, hpr]
      have hd := deactivate_profiles
        (crisisPainCheckState (feedMetrics m metrics ts).1) p
        (by rw [show (crisisPainCheckState
            (feedMetrics m metrics ts).1).current_profile =
            (feedMetrics m metrics ts).1.current_profile from rfl,
            (feedMetrics_flag m metrics ts).2]; exact hp)
      refine ⟨?_, ?_, fun _ _ => hd.2, ?_⟩
      · rw [hd.1]
        rfl
      · intro h
        exact absurd h (by simp)
      · intro h
        exact absurd h (by simp)
    · rw [if_neg (by simp [hpr]), hpr]
      refine ⟨?_, ?_, fun _ hb => absurd hb (by simp [hpr]), ?_⟩
      · rw [show (crisisPainCheckState (feedMetrics m metrics ts).1).crisis_mode =
          (feedMetrics m metrics ts).1.crisis_mode from rfl,
          (feedMetrics_flag m metrics ts).1, hc]
        rfl
      · intro h
        exact absurd h (by simp)
      · intro h
        exact absurd h (by simp)

/-- A crisis-mode manager whose recorded profile name is not in the
registry (reachable through `from_state`, which restores `current_profile`
and `crisis_mode` verbatim). -/
def c2Manager : SensorCalibrationManager :=
  { mkManager with crisis_mode := true, current_profile := "bogus" }

/-- Calm metrics: pain 0.4 (below 0.5, no spike), everything else at the
0.5 baseline. -/
def c2Metrics : IskraMetrics :=
  { trust := 0.5, clarity := 0.5, pain := 0.4, drift := 0.5, chaos := 0.5,
    mirror_sync := some 0.5 }

set_option maxHeartbeats 1600000 in
/-- C2, counterexample: from a crisis-mode manager whose
`current_profile_name` is `"bogus"` (not a registry profile), a calm batch
(pain 0.4, non-rising) moves the flag crisis → normal, but no sensor's
profile reverts to the recorded name — the pain sensor still carries the
`default` profile, not any profile named `"bogus"` — refuting the
unconditional revert clause of the claim. -/
theorem C2_counterexample :
    (update_from_metrics c2Manager c2Metrics 0).1.crisis_mode = false ∧
    c2Manager.crisis_mode = true ∧
    (update_from_metrics c2Manager c2Metrics 0).1.current_profile = "bogus" ∧
    (update_from_metrics c2Manager c2Metrics 0).1.sensors.pain.profile.name =
      "default" ∧
    "default" ≠ "bogus" := by
  have habs1 : |(1 : ℚ) / 10| = 1 / 10 := abs_of_nonneg (by norm_num)
  have habs0 : |(0 : ℚ)| = 0 := abs_zero
  have hdir : (TrendDirection.stable = TrendDirection.rising) = False := by simp
  have hb1 : ("bogus" == "default") = false := rfl
  have hb2 : ("bogus" == "sensitive") = false := rfl
  have hb3 : ("bogus" == "relaxed") = false := rfl
  have hb4 : ("bogus" == "crisis") = false := rfl
  refine ⟨?_, rfl, ?_, ?_, by decide⟩ <;>
    norm_num [habs1, habs0, hdir, hb1, hb2, hb3, hb4, update_from_metrics, feedMetrics, check_crisis_conditions,
      crisisPainCheckState, painRecoveryCheck, countSevereOrCritical,
      activate_crisis_mode, deactivate_crisis_mode, CalibratedSensor.add_reading,
      CalibratedSensor.ingest, CalibratedSensor.detect_spike,
      CalibratedSensor.analyze_trend, CalibratedSensor.current_value,
      CalibratedSensor.set_profile, lookupProfile, CALIBRATION_PROFILES,
      List.lookup, Sensors.map, mkManager, mkSensor, defaultProfile,
      dequeAppend, takeLast, c2Manager, c2Metrics]

/-- Witness for C2 at the fresh manager (registered profile `default`) and
the calm metrics batch. -/
theorem C2_crisis_transitions_witness :
    lookupProfile mkManager.current_profile = some defaultProfile ∧
    (((update_from_metrics mkManager c2Metrics 0).1.crisis_mode =
      (if mkManager.crisis_mode
        then !(painRecoveryCheck (feedMetrics mkManager c2Metrics 0).1.sensors.pain).1
        else decide (2 ≤ countSevereOrCritical (feedMetrics mkManager c2Metrics 0).2))) ∧
    (mkManager.crisis_mode = false →
      2 ≤ countSevereOrCritical (feedMetrics mkManager c2Metrics 0).2 →
      (update_from_metrics mkManager c2Metrics 0).1.sensors.allProfile crisisProfile) ∧
    (mkManager.crisis_mode = true →
      (painRecoveryCheck (feedMetrics mkManager c2Metrics 0).1.sensors.pain).1 = true →
      (update_from_metrics mkManager c2Metrics 0).1.sensors.allProfile defaultProfile) ∧
    (mkManager.crisis_mode = false →
      countSevereOrCritical (feedMetrics mkManager c2Metrics 0).2 < 2 →
      (update_from_metrics mkManager c2Metrics 0).1 =
        (feedMetrics mkManager c2Metrics 0).1)) :=
  ⟨rfl, C2_crisis_transitions mkManager c2Metrics 0 defaultProfile rfl⟩

/-! ### Threshold bound invariant (claim C3) -/

/-- `min_bound ≤ current_value ≤ max_bound` for one threshold state. -/
def thresholdWithinBounds (t : ThresholdState) : Prop :=
  t.min_bound ≤ t.current_value ∧ t.current_value ≤ t.max_bound

/-- The threshold's base value lies within its bounds (true for most, but
not all, of the configured thresholds). -/
def baseWithinBounds (t : ThresholdState) : Prop :=
  t.min_bound ≤ t.base_value ∧ t.base_value ≤ t.max_bound

/-- Every threshold whose base value lies within its bounds currently lies
within its bounds. -/
def AdapterGood (ad : DynamicThresholdAdapterV2) : Prop :=
  ∀ e ∈ ad.states, baseWithinBounds e.2 → thresholdWithinBounds e.2

theorem clampQ_bounds (v lo hi : ℚ) (h : lo ≤ hi) :
    lo ≤ clampQ v lo hi ∧ clampQ v lo hi ≤ hi :=
  ⟨le_max_left lo _, max_le h (min_le_left hi v)⟩

theorem setState_good (states : List (String × ThresholdState)) (name : String)
    (st : ThresholdState)
    (h : ∀ e ∈ states, baseWithinBounds e.2 → thresholdWithinBounds e.2)
    (hst : baseWithinBounds st → thresholdWithinBounds st) :
    ∀ e ∈ setState states name st, baseWithinBounds e.2 → thresholdWithinBounds e.2 := by
  intro e he
  unfold setState at he
  rcases List.mem_map.1 he with ⟨a, ha, rfl⟩
  by_cases hn : a.1 = name
  · rw [if_pos hn]
    exact hst
  · rw [if_neg hn]
    exact h a ha

theorem record_change_states (ad : DynamicThresholdAdapterV2) (name : String)
    (o n now : ℚ) (reason : String) :
    (record_change ad name o n reason now).states = ad.states := rfl

theorem adapt_good (ad : DynamicThresholdAdapterV2) (name : String)
    (observed_value adaptation_rate context_mult : ℚ) (inverse : Bool)
    (ceiling_threshold : Option String) (ceiling_margin now : ℚ)
    (h : AdapterGood ad) :
    AdapterGood (adapt_threshold ad name observed_value adaptation_rate context_mult
      inverse ceiling_threshold ceiling_margin now).1 := by
  unfold adapt_threshold
  cases hl : lookupState ad name with
  | none => exact h
  | some state =>
    dsimp only
    split_ifs <;>
      first
        | exact h
        | (intro e he
           refine setState_good ad.states name _ h ?_ e he
           intro hbase
           exact clampQ_bounds _ _ _ (le_trans hbase.1 hbase.2))

theorem adapterUpdate_good (ad : DynamicThresholdAdapterV2) (metrics : IskraMetrics)
    (phase : Option PhaseType) (now : ℚ) (h : AdapterGood ad) :
    AdapterGood (adapterUpdate ad metrics phase now).1 := by
  unfold adapterUpdate
  dsimp only
  apply adapt_good
  apply adapt_good
  apply adapt_good
  apply adapt_good
  apply adapt_good
  split
  · exact h
  · exact h

theorem reset_good (ad : DynamicThresholdAdapterV2) (threshold_name : Option String)
    (now : ℚ) (h : AdapterGood ad) :
    AdapterGood (reset_to_base ad threshold_name now) := by
  cases threshold_name with
  | some name =>
    unfold reset_to_base
    dsimp only
    cases hl : lookupState ad name with
    | none => simp only [hl]; exact h
    | some state =>
      simp only [hl]
      intro e he
      rw [record_change_states] at he
      dsimp only at he
      exact setState_good ad.states name _ h (fun hbase => ⟨hbase.1, hbase.2⟩) e he
  | none =>
    unfold reset_to_base
    dsimp only
    have hfold : ∀ (l : List (String × ThresholdState))
        (acc : DynamicThresholdAdapterV2), AdapterGood acc →
        AdapterGood (l.foldl (fun acc e =>
          let st := { e.2 with current_value := e.2.base_value }
          let acc2 := { acc with states := setState acc.states e.1 st }
          record_change acc2 e.1 e.2.current_value e.2.base_value "reset_all" now) acc) := by
      intro l
      induction l with
      | nil => intro acc hacc; exact hacc
      | cons e rest ih =>
        intro acc hacc
        dsimp only [List.foldl]
        refine ih _ ?_
        intro e2 he2
        rw [record_change_states] at he2
        dsimp only at he2
        exact setState_good acc.states e.1 _ hacc (fun hbase => ⟨hbase.1, hbase.2⟩) e2 he2
    exact hfold ad.states ad h

theorem runAdapterOps_good (ops : List AdapterOp) (ad : DynamicThresholdAdapterV2)
    (h : AdapterGood ad) : AdapterGood (runAdapterOps ad ops) := by
  induction ops generalizing ad with
  | nil => exact h
  | cons op rest ih =>
    cases op with
    | update metrics phase now =>
      exact ih _ (adapterUpdate_good ad metrics phase now h)
    | reset name now => exact ih _ (reset_good ad name now h)

theorem adapterGood_init (now : ℚ) : AdapterGood (mkAdapter now) := by
  intro e he hbase
  have he2 : e ∈ initThresholdStates now := he
  unfold initThresholdStates at he2
  rcases List.mem_map.1 he2 with ⟨nb, _, rfl⟩
  exact ⟨hbase.1, hbase.2⟩

/-- C3, counterexample: the invariant is already violated at construction —
`trust_low` has base value 0.75 from the config but bounds (0.3, 0.6), so
the freshly built adapter (zero `update()` calls) carries
`current_value = 0.75 > max_bound = 0.6`. -/
theorem C3_counterexample :
    (mkAdapter 0).states.lookup "trust_low" =
      some { name := "trust_low", base_value := 0.75, current_value := 0.75,
             min_bound := 0.3, max_bound := 0.6, last_updated := 0,
             update_count := 0 } ∧
    ¬((0.75 : ℚ) ≤ 0.6) :=
  ⟨rfl, by norm_num⟩

/-- The persisted payload that smuggles an out-of-bounds `current_value`
into the `pain_high` threshold on restore. -/
def c3BadPayload : PyVal :=
  PyVal.dict [("states", PyVal.dict [("pain_high",
    PyVal.dict [("current_value", PyVal.num 5)])])]

/-- C3, amended: for every threshold whose base value lies within its
bounds, `min_bound ≤ current_value ≤ max_bound` holds on the freshly
constructed adapter and is preserved by any sequence of `update()` and
`reset_to_base()` calls from any state satisfying it. It fails at
construction for the thresholds whose config base values fall outside the
default bounds (`trust_low`, `splinter_pain_cycles`, `sift_max_hops`,
`vulnerability_range_max`), and `from_state` copies the payload's
`current_value` verbatim, so a restore does not re-establish it (last
conjunct: a payload value 5 lands unclamped in `pain_high`, whose bounds
are [0.4, 0.95]). -/
theorem C3_threshold_bounds (now : ℚ) (ops : List AdapterOp)
    (ad : DynamicThresholdAdapterV2) (had : AdapterGood ad) :
    AdapterGood (mkAdapter now) ∧
    AdapterGood (runAdapterOps (mkAdapter now) ops) ∧
    AdapterGood (runAdapterOps ad ops) ∧
    ((adapterFromState c3BadPayload 0).toOption.bind
        (fun a => a.states.lookup "pain_high")).map
      (fun t => (t.current_value, t.min_bound, t.max_bound)) =
      some (5, 0.4, 0.95) :=
  ⟨adapterGood_init now,
   runAdapterOps_good ops (mkAdapter now) (adapterGood_init now),
   runAdapterOps_good ops ad had, rfl⟩

/-- Witness for C3: one reset-all and one update from the fresh adapter. -/
theorem C3_threshold_bounds_witness :
    AdapterGood (mkAdapter 0) ∧
    (AdapterGood (mkAdapter 0) ∧
    AdapterGood (runAdapterOps (mkAdapter 0)
      [AdapterOp.reset Option.none 1, AdapterOp.update c2Metrics Option.none 2]) ∧
    AdapterGood (runAdapterOps (mkAdapter 0)
      [AdapterOp.reset Option.none 1, AdapterOp.update c2Metrics Option.none 2]) ∧
    ((adapterFromState c3BadPayload 0).toOption.bind
        (fun a => a.states.lookup "pain_high")).map
      (fun t => (t.current_value, t.min_bound, t.max_bound)) =
      some (5, 0.4, 0.95)) :=
  ⟨adapterGood_init 0,
   C3_threshold_bounds 0
     [AdapterOp.reset Option.none 1, AdapterOp.update c2Metrics Option.none 2]
     (mkAdapter 0) (adapterGood_init 0)⟩

end Iskra
